import Mathlib

/-!
# GpsBoat navigation controller: embedding of `main.cpp`

A shallow embedding of the navigation logic of `src/main.cpp`: the turn decision
`DirectionToBearing`, the heading normalisation `GetCompassHeading`, the fix tracker
`UpdateGps` and the state machine in `loop`.

Modelling conventions
* C `float` values are elements of an arbitrary linearly ordered field `K` (exact
  arithmetic); every definition is computable and can be evaluated at `K = ℚ`.
* The statics of `loop` and `UpdateGps`, and the globals, are the fields of `Ctrl`.
  `U8 update_counter` is a `Nat` kept below `256`, `S16 gps_delay` an `Int` kept in the
  signed 16-bit range (`wrapS16`).
* The constants of the absent `config.h` / `includes.h` and the two `TinyGPS` geometry
  routines (`course_to`, `distance_between`) are the fields of `Config`.
* One call of `loop` is one tick.  Its inputs are what the GPS decoder delivered since the
  previous tick (`none` when no sentence completed) and the raw `atan2` angle of the compass.
  Its outputs are the new controller state and the actuator calls (`SetRudder`, `SetSpeed`)
  in the order they are made.  `printf`, the LED and `delay` are not recorded, nor is the
  static `last_NavState`, which only drives a `printf`.
* `loop` is `navStep`, the `switch( geNavState )`, applied to the value returned by
  `UpdateGps`, to the heading returned by `GetCompassHeading` and to the state with the
  GPS data latched.  Properties of a single tick "with lock value `b` and heading `h`" are
  stated on `navStep cfg b h s`, for all `b`, `h` and `s`; properties of runs are stated on
  `run`, which iterates `loop`.
* "The tick executes this assignment" is a predicate on the tick's input and entry state
  that repeats the guards under which the assignment stands in the source (`writesHome`,
  `assignsInitialDist`); `countTicks` and `ticksInState` count the ticks of a run on which
  such a predicate holds.
* In this model the arithmetic of `float` is exact.  Where the rounding of a `float`
  operation decides a property (the subtraction `float Diff = ...` of
  `DirectionToBearing`), the function is also given with that operation rounded to
  binary32, round to nearest, ties to even (`roundF32`, `DirectionToBearingF32`).
  Infinities and NaN are outside the model.
-/

namespace GpsBoat

/-- Turn decision, `E_DIRECTION` of the source. -/
inductive E_DIRECTION where
  | E_GO_LEFT
  | E_GO_RIGHT
  | E_GO_STRAIGHT
  deriving DecidableEq, Repr

/-- Program state machine states, `E_NAV_STATE` of the source. -/
inductive E_NAV_STATE where
  | E_NAV_INIT
  | E_NAV_WAIT_FOR_GPS_LOCK
  | E_NAV_WAIT_FOR_GPS_STABLIZE
  | E_NAV_WAIT_FOR_GPS_RELOCK
  | E_NAV_SET_NEXT_WAYPOINT
  | E_NAV_START
  | E_NAV_RUN
  | E_NAV_STOP
  | E_NAV_IDLE
  | E_NAV_MAX
  deriving DecidableEq, Repr

/-- Latched GPS data, `tGPS_INFO` (the time-of-day bytes, written only under
`USE_GPS_TIME_INFO` and never read, are left out). -/
structure tGPS_INFO (K : Type) where
  flat : K
  flon : K
  fmph : K
  fcourse : K

/-- Way point, `tWAY_POINT`. -/
structure tWAY_POINT (K : Type) where
  flat : K
  flon : K

/-- What `TinyGPS` reports after `Gps.encode` completed a sentence: position, speed, course
and whether `fix_age == TinyGPS::GPS_INVALID_AGE`. -/
structure GpsSample (K : Type) where
  flat : K
  flon : K
  fmph : K
  fcourse : K
  age_invalid : Bool

/-- An actuator call made by `loop`. -/
inductive Cmd where
  | SetRudder (new_setting : Int)
  | SetSpeed (new_speed : Int)
  deriving DecidableEq, Repr

/-- Constants of `config.h` / `includes.h` and the `TinyGPS` geometry routines. -/
structure Config (K : Type) where
  NUM_WAY_POINTS : Int
  GPS_STABALIZE_LOCK_TIME : Int
  DEGREES_TO_BEARING_TOLERANCE : K
  SWITCH_WAYPOINT_DISTANCE : K
  USE_HOME_POSITION : Bool
  DO_GPS_TEST : Bool
  MAG_VAR : K
  PI : K
  RUDDER_FULL_LEFT : Int
  RUDDER_LEFT : Int
  RUDDER_CENTER : Int
  RUDDER_RIGHT : Int
  RUDDER_FULL_RIGHT : Int
  SPEED_STOP : Int
  SPEED_25_PERCENT : Int
  SPEED_50_PERCENT : Int
  SPEED_100_PERCENT : Int
  WAYPOINT_HOME : tWAY_POINT K
  WAYPOINTS : List (tWAY_POINT K)
  course_to : K → K → K → K → K
  distance_between : K → K → K → K → K

/-- Globals of `main.cpp` and the statics of `loop` and `UpdateGps`. -/
structure Ctrl (K : Type) where
  geNavState : E_NAV_STATE
  gTargetWP : Int
  gtWayPoint : List (tWAY_POINT K)
  gtGpsData : tGPS_INFO K
  bLocked : Bool
  dist_to_waypoint : K
  initial_dist_to_waypoint : K
  bear_to_waypoint : K
  update_counter : Nat
  gps_delay : Int

/-- Inputs of one tick: the decoded GPS sample, if a sentence completed during the drain of
the serial buffer, and the raw `atan2(mag_y, mag_x)` angle. -/
structure TickInput (K : Type) where
  gps : Option (GpsSample K)
  atan2_out : K

section Defs

variable {K : Type} [LinearOrderedField K]

/-- Value stored in an `S16` variable: reduction into `[-32768, 32767]`. -/
def wrapS16 (x : Int) : Int := (x + 32768) % 65536 - 32768

/-- Value stored in a `U8` variable. -/
def wrapU8 (x : Nat) : Nat := x % 256

/-- The source's `DirectionToBearing`.  The local `eDirToGo` is declared without an
initialiser; `none` stands for "not assigned".  `abs` is the absolute value. -/
def DirectionToBearing (DestinationBearing CurrentBearing BearingTolerance : K) :
    Option E_DIRECTION :=
  let eDirToGo : Option E_DIRECTION := none
  let Diff := DestinationBearing - CurrentBearing
  let AbsDiff := abs Diff
  let bNeg : Bool := decide (Diff < 0)
  let bBig : Bool := decide (AbsDiff > 180)
  if AbsDiff ≤ BearingTolerance then
    some E_DIRECTION.E_GO_STRAIGHT
  else
    let eDirToGo := if !bNeg && !bBig then some E_DIRECTION.E_GO_RIGHT else eDirToGo
    let eDirToGo := if !bNeg && bBig then some E_DIRECTION.E_GO_LEFT else eDirToGo
    let eDirToGo := if bNeg && !bBig then some E_DIRECTION.E_GO_LEFT else eDirToGo
    let eDirToGo := if bNeg && bBig then some E_DIRECTION.E_GO_RIGHT else eDirToGo
    eDirToGo

/-- Modelled from the spec: the `radians` conversion of the absent `includes.h`
("declination (converted to radians)"). -/
def radians (pi deg : K) : K := deg * (pi / 180)

/-- Modelled from the spec: the `degrees` conversion of the absent `includes.h`
("convert to degrees"). -/
def degrees (pi rad : K) : K := rad * (180 / pi)

/-- Modelled from the spec: the constant `TWO_PI` of the absent `includes.h`
("a full turn"). -/
def TWO_PI (pi : K) : K := 2 * pi

/-- The source's `GetCompassHeading`, from the value of `atan2(mag_y, mag_x)` on. -/
def GetCompassHeading (pi atan2_out declination : K) : K :=
  let heading := atan2_out
  let heading := heading - radians pi declination
  let heading := if heading < 0 then heading + TWO_PI pi else heading
  let heading := if heading > TWO_PI pi then heading - TWO_PI pi else heading
  degrees pi heading

/-- The source's `UpdateGps`: the new value of the static `bLocked` (which is also the
value returned) and the new `gtGpsData`. -/
def UpdateGps (sample : Option (GpsSample K)) (bLocked : Bool) (info : tGPS_INFO K) :
    Bool × tGPS_INFO K :=
  match sample with
  | none => (bLocked, info)
  | some g =>
    (if g.age_invalid then false else true,
      { flat := g.flat, flon := g.flon, fmph := g.fmph, fcourse := g.fcourse })

/-- Read of `gtWayPoint[i]` (an index outside the table reads a zero way point). -/
def wayPointAt (tbl : List (tWAY_POINT K)) (i : Int) : tWAY_POINT K :=
  tbl.getD i.toNat { flat := 0, flon := 0 }

/-- The index update of `E_NAV_SET_NEXT_WAYPOINT`: `gTargetWP++` then
`gTargetWP % NUM_WAY_POINTS` (C remainder). -/
def nextTargetWP (NUM_WAY_POINTS gTargetWP : Int) : Int :=
  (gTargetWP + 1).tmod NUM_WAY_POINTS

/-- The test `0 == (update_counter % 10)` of `E_NAV_RUN`. -/
def refreshDue (update_counter : Nat) : Bool := update_counter % 10 == 0

/-- The `bearing_tolerance` chosen in `E_NAV_RUN` (the literals `0.10` and `0.5` as
fractions). -/
def runBearingTolerance (cfg : Config K) (dist_to_waypoint initial_dist_to_waypoint : K) : K :=
  if dist_to_waypoint ≤ initial_dist_to_waypoint * (10 / 100) then
    cfg.DEGREES_TO_BEARING_TOLERANCE * (5 / 10)
  else
    cfg.DEGREES_TO_BEARING_TOLERANCE

/-- The inner `switch` of `E_NAV_RUN` ("correct track to waypoint"): the actuator calls made
for a turn decision. -/
def runSteer (cfg : Config K) (dir : Option E_DIRECTION) : List Cmd :=
  match dir with
  | some E_DIRECTION.E_GO_LEFT => [Cmd.SetRudder cfg.RUDDER_LEFT]
  | some E_DIRECTION.E_GO_RIGHT => [Cmd.SetRudder cfg.RUDDER_RIGHT]
  | some E_DIRECTION.E_GO_STRAIGHT =>
    [Cmd.SetRudder cfg.RUDDER_CENTER, Cmd.SetSpeed cfg.SPEED_100_PERCENT]
  | none => []

/-- The `switch( geNavState )` of `loop`, given the value returned by `UpdateGps` and the
compass heading of this tick. -/
def navStep (cfg : Config K) (bGpsLocked : Bool) (current_heading : K) (s : Ctrl K) :
    Ctrl K × List Cmd :=
  match s.geNavState with
  | E_NAV_STATE.E_NAV_INIT =>
    ({ s with gTargetWP := 0, geNavState := E_NAV_STATE.E_NAV_WAIT_FOR_GPS_LOCK }, [])
  | E_NAV_STATE.E_NAV_WAIT_FOR_GPS_LOCK =>
    if bGpsLocked then
      ({ s with gps_delay := wrapS16 cfg.GPS_STABALIZE_LOCK_TIME,
                geNavState := E_NAV_STATE.E_NAV_WAIT_FOR_GPS_STABLIZE }, [])
    else (s, [])
  | E_NAV_STATE.E_NAV_WAIT_FOR_GPS_STABLIZE =>
    let s1 := { s with gps_delay := wrapS16 (s.gps_delay - 1) }
    if s.gps_delay ≠ 0 then (s1, [])
    else
      let s2 :=
        if cfg.USE_HOME_POSITION then s1
        else { s1 with gtWayPoint :=
                s1.gtWayPoint.set 0 { flat := s1.gtGpsData.flat, flon := s1.gtGpsData.flon } }
      ({ s2 with geNavState :=
          if cfg.DO_GPS_TEST then E_NAV_STATE.E_NAV_IDLE
          else E_NAV_STATE.E_NAV_SET_NEXT_WAYPOINT }, [])
  | E_NAV_STATE.E_NAV_SET_NEXT_WAYPOINT =>
    let wp := nextTargetWP cfg.NUM_WAY_POINTS s.gTargetWP
    ({ s with gTargetWP := wp,
              bear_to_waypoint :=
                cfg.course_to s.gtGpsData.flat s.gtGpsData.flon
                  (wayPointAt s.gtWayPoint wp).flat (wayPointAt s.gtWayPoint wp).flon,
              geNavState := E_NAV_STATE.E_NAV_START }, [])
  | E_NAV_STATE.E_NAV_WAIT_FOR_GPS_RELOCK =>
    if bGpsLocked then ({ s with geNavState := E_NAV_STATE.E_NAV_START }, [])
    else (s, [])
  | E_NAV_STATE.E_NAV_START =>
    match DirectionToBearing s.bear_to_waypoint current_heading
        cfg.DEGREES_TO_BEARING_TOLERANCE with
    | some E_DIRECTION.E_GO_LEFT =>
      (s, [Cmd.SetRudder cfg.RUDDER_FULL_LEFT, Cmd.SetSpeed cfg.SPEED_25_PERCENT])
    | some E_DIRECTION.E_GO_RIGHT =>
      (s, [Cmd.SetRudder cfg.RUDDER_FULL_RIGHT, Cmd.SetSpeed cfg.SPEED_25_PERCENT])
    | some E_DIRECTION.E_GO_STRAIGHT =>
      let d := cfg.distance_between s.gtGpsData.flat s.gtGpsData.flon
                (wayPointAt s.gtWayPoint s.gTargetWP).flat
                (wayPointAt s.gtWayPoint s.gTargetWP).flon
      ({ s with geNavState := E_NAV_STATE.E_NAV_RUN,
                initial_dist_to_waypoint := d,
                dist_to_waypoint := d },
        [Cmd.SetRudder cfg.RUDDER_CENTER, Cmd.SetSpeed cfg.SPEED_50_PERCENT])
    | none => (s, [])
  | E_NAV_STATE.E_NAV_RUN =>
    let s1 :=
      if refreshDue s.update_counter then
        { s with update_counter := wrapU8 (s.update_counter + 1),
                 dist_to_waypoint :=
                   cfg.distance_between s.gtGpsData.flat s.gtGpsData.flon
                     (wayPointAt s.gtWayPoint s.gTargetWP).flat
                     (wayPointAt s.gtWayPoint s.gTargetWP).flon,
                 bear_to_waypoint :=
                   cfg.course_to s.gtGpsData.flat s.gtGpsData.flon
                     (wayPointAt s.gtWayPoint s.gTargetWP).flat
                     (wayPointAt s.gtWayPoint s.gTargetWP).flon }
      else { s with update_counter := wrapU8 (s.update_counter + 1) }
    if bGpsLocked = false then
      ({ s1 with geNavState := E_NAV_STATE.E_NAV_STOP }, [])
    else
      let bearing_tolerance :=
        runBearingTolerance cfg s1.dist_to_waypoint s1.initial_dist_to_waypoint
      let steer : List Cmd :=
        runSteer cfg (DirectionToBearing s1.bear_to_waypoint current_heading bearing_tolerance)
      if s1.dist_to_waypoint ≤ cfg.SWITCH_WAYPOINT_DISTANCE then
        ({ s1 with geNavState := E_NAV_STATE.E_NAV_SET_NEXT_WAYPOINT },
          steer ++ [Cmd.SetSpeed cfg.SPEED_STOP])
      else (s1, steer)
  | E_NAV_STATE.E_NAV_STOP =>
    if bGpsLocked = false then
      ({ s with geNavState := E_NAV_STATE.E_NAV_WAIT_FOR_GPS_RELOCK },
        [Cmd.SetSpeed cfg.SPEED_STOP])
    else
      ({ s with geNavState := E_NAV_STATE.E_NAV_IDLE }, [Cmd.SetSpeed cfg.SPEED_STOP])
  | E_NAV_STATE.E_NAV_IDLE => (s, [])
  | E_NAV_STATE.E_NAV_MAX => (s, [])

/-- The value `UpdateGps` returns to `loop` in a tick with input `inp` from state `s`. -/
def lockedAt (inp : TickInput K) (s : Ctrl K) : Bool :=
  (UpdateGps inp.gps s.bLocked s.gtGpsData).1

/-- The compass heading `loop` computes in a tick with input `inp`. -/
def headingAt (cfg : Config K) (inp : TickInput K) : K :=
  GetCompassHeading cfg.PI inp.atan2_out cfg.MAG_VAR

/-- The controller state after the `UpdateGps` call of a tick. -/
def afterGps (inp : TickInput K) (s : Ctrl K) : Ctrl K :=
  { s with bLocked := (UpdateGps inp.gps s.bLocked s.gtGpsData).1,
           gtGpsData := (UpdateGps inp.gps s.bLocked s.gtGpsData).2 }

/-- One call of the source's `loop`: `UpdateGps`, `GetCompassHeading`, then the switch. -/
def loop (cfg : Config K) (inp : TickInput K) (s : Ctrl K) : Ctrl K × List Cmd :=
  navStep cfg (lockedAt inp s) (headingAt cfg inp) (afterGps inp s)

/-- The way point table as initialised in the source. -/
def initialWayPoints (cfg : Config K) : List (tWAY_POINT K) :=
  (if cfg.USE_HOME_POSITION then cfg.WAYPOINT_HOME else { flat := 0, flon := 0 })
    :: cfg.WAYPOINTS

/-- The controller state when `setup` returns: `geNavState = E_NAV_INIT`, the statics at
their initialisers (zero where none is written). -/
def initCtrl (cfg : Config K) : Ctrl K :=
  { geNavState := E_NAV_STATE.E_NAV_INIT
    gTargetWP := 0
    gtWayPoint := initialWayPoints cfg
    gtGpsData := { flat := 0, flon := 0, fmph := 0, fcourse := 0 }
    bLocked := false
    dist_to_waypoint := 0
    initial_dist_to_waypoint := 0
    bear_to_waypoint := 0
    update_counter := 0
    gps_delay := 0 }

/-- The `while(1)` of `main` cut after finitely many ticks: final state and all actuator
calls made, in order. -/
def run (cfg : Config K) : Ctrl K → List (TickInput K) → Ctrl K × List Cmd
  | s, [] => (s, [])
  | s, inp :: rest =>
    ((run cfg (loop cfg inp s).1 rest).1, (loop cfg inp s).2 ++ (run cfg (loop cfg inp s).1 rest).2)

/-- Number of ticks of a run that are executed with `geNavState = st` on entry. -/
def ticksInState (cfg : Config K) (st : E_NAV_STATE) : Ctrl K → List (TickInput K) → Nat
  | _, [] => 0
  | s, inp :: rest =>
    (if s.geNavState = st then 1 else 0) + ticksInState cfg st (loop cfg inp s).1 rest

/-- The values `UpdateGps` returns, tick by tick, along a run. -/
def lockedTrace (cfg : Config K) : Ctrl K → List (TickInput K) → List Bool
  | _, [] => []
  | s, inp :: rest => lockedAt inp s :: lockedTrace cfg (loop cfg inp s).1 rest

/-- Whether the tick executed from `s` runs the two assignments to `gtWayPoint[0]`: they
stand in the else-branch of `if( gps_delay-- )` in `E_NAV_WAIT_FOR_GPS_STABLIZE` and are
compiled only when `USE_HOME_POSITION` is off. -/
def writesHome (cfg : Config K) (s : Ctrl K) : Bool :=
  decide (s.geNavState = E_NAV_STATE.E_NAV_WAIT_FOR_GPS_STABLIZE) && decide (s.gps_delay = 0)
    && !cfg.USE_HOME_POSITION

/-- Whether the tick with input `inp` executed from `s` runs the assignment to
`initial_dist_to_waypoint`: it stands in `case E_GO_STRAIGHT` of `E_NAV_START`. -/
def assignsInitialDist (cfg : Config K) (inp : TickInput K) (s : Ctrl K) : Bool :=
  decide (s.geNavState = E_NAV_STATE.E_NAV_START) &&
    decide (DirectionToBearing s.bear_to_waypoint (headingAt cfg inp)
      cfg.DEGREES_TO_BEARING_TOLERANCE = some E_DIRECTION.E_GO_STRAIGHT)

/-- Whether the tick with input `inp` executed from `s` is a tick of `E_NAV_RUN` on which
`UpdateGps` returns `false`. -/
def losesLockInRun (inp : TickInput K) (s : Ctrl K) : Bool :=
  decide (s.geNavState = E_NAV_STATE.E_NAV_RUN) && !lockedAt inp s

/-- Whether the tick is executed in `E_NAV_STOP` or `E_NAV_WAIT_FOR_GPS_RELOCK`. -/
def inStopOrRelock (_inp : TickInput K) (s : Ctrl K) : Bool :=
  decide (s.geNavState = E_NAV_STATE.E_NAV_STOP) ||
    decide (s.geNavState = E_NAV_STATE.E_NAV_WAIT_FOR_GPS_RELOCK)

/-- Number of ticks of a run on which `p` holds of the tick's input and entry state. -/
def countTicks (cfg : Config K) (p : TickInput K → Ctrl K → Bool) :
    Ctrl K → List (TickInput K) → Nat
  | _, [] => 0
  | s, inp :: rest => (if p inp s then 1 else 0) + countTicks cfg p (loop cfg inp s).1 rest

/-- Reduction of an angle in degrees modulo a full turn, into `[0, 360)` (used to state
properties; not part of the program). -/
def mod360 [FloorRing K] (x : K) : K := x - 360 * ((⌊x / 360⌋ : ℤ) : K)

end Defs

/-! ## Binary32 rounding -/

/-- Rounding of a rational to the nearest integer, ties to the even one. -/
def roundTiesEven (y : ℚ) : ℤ :=
  if Int.fract y < 1 / 2 then ⌊y⌋
  else if 1 / 2 < Int.fract y then ⌊y⌋ + 1
  else if ⌊y⌋ % 2 = 0 then ⌊y⌋ else ⌊y⌋ + 1

/-- Exponent of the binary32 binade of `x`: the `e` with `2 ^ e ≤ |x| < 2 ^ (e + 1)`, and
`-126` for the subnormal range and for `0`. -/
def f32Exponent (x : ℚ) : ℤ := max (Int.log 2 |x|) (-126)

/-- Spacing of the binary32 numbers in the binade of `x` (24 significant bits). -/
def f32Ulp (x : ℚ) : ℚ := (2 : ℚ) ^ (f32Exponent x - 23)

/-- The binary32 value of a real result `x`: round to nearest, ties to even (for `|x|`
below the overflow threshold). -/
def roundF32 (x : ℚ) : ℚ := (roundTiesEven (x / f32Ulp x) : ℚ) * f32Ulp x

/-- The source's `DirectionToBearing` with `float Diff = DestinationBearing -
CurrentBearing` rounded to binary32; the rest is the text of `DirectionToBearing`
(`abs` and the three comparisons are exact on binary32 values). -/
def DirectionToBearingF32 (DestinationBearing CurrentBearing BearingTolerance : ℚ) :
    Option E_DIRECTION :=
  let eDirToGo : Option E_DIRECTION := none
  let Diff := roundF32 (DestinationBearing - CurrentBearing)
  let AbsDiff := abs Diff
  let bNeg : Bool := decide (Diff < 0)
  let bBig : Bool := decide (AbsDiff > 180)
  if AbsDiff ≤ BearingTolerance then
    some E_DIRECTION.E_GO_STRAIGHT
  else
    let eDirToGo := if !bNeg && !bBig then some E_DIRECTION.E_GO_RIGHT else eDirToGo
    let eDirToGo := if !bNeg && bBig then some E_DIRECTION.E_GO_LEFT else eDirToGo
    let eDirToGo := if bNeg && !bBig then some E_DIRECTION.E_GO_LEFT else eDirToGo
    let eDirToGo := if bNeg && bBig then some E_DIRECTION.E_GO_RIGHT else eDirToGo
    eDirToGo

/-! ## A concrete configuration, for evaluating the controller -/

/-- A configuration over `ℚ`: three way points, tolerance `5` degrees, switch distance `1`,
home latched from the first fix.  The two geometry routines are stand-ins: the course is
always `0` and the distance is the taxicab distance. -/
def exampleConfig (lockTime : Int) : Config ℚ :=
  { NUM_WAY_POINTS := 3
    GPS_STABALIZE_LOCK_TIME := lockTime
    DEGREES_TO_BEARING_TOLERANCE := 5
    SWITCH_WAYPOINT_DISTANCE := 1
    USE_HOME_POSITION := false
    DO_GPS_TEST := false
    MAG_VAR := 0
    PI := 355 / 113
    RUDDER_FULL_LEFT := 45
    RUDDER_LEFT := 70
    RUDDER_CENTER := 90
    RUDDER_RIGHT := 110
    RUDDER_FULL_RIGHT := 135
    SPEED_STOP := 90
    SPEED_25_PERCENT := 80
    SPEED_50_PERCENT := 70
    SPEED_100_PERCENT := 50
    WAYPOINT_HOME := { flat := 0, flon := 0 }
    WAYPOINTS := [{ flat := 100, flon := 0 }, { flat := 100, flon := 100 }]
    course_to := fun _ _ _ _ => 0
    distance_between := fun flat flon wlat wlon => |wlat - flat| + |wlon - flon| }

/-- A tick in which the decoder delivers a valid fix at `(flat, flon)`; compass angle `0`. -/
def fixTick (flat flon : ℚ) : TickInput ℚ :=
  { gps := some { flat := flat, flon := flon, fmph := 0, fcourse := 0, age_invalid := false }
    atan2_out := 0 }

/-- A tick in which the decoder delivers a sample whose fix age is invalid. -/
def noFixTick : TickInput ℚ :=
  { gps := some { flat := 1000, flon := 1000, fmph := 0, fcourse := 0, age_invalid := true }
    atan2_out := 0 }

/-- A tick in which no sentence completes. -/
def quietTick : TickInput ℚ := { gps := none, atan2_out := 0 }

/-- Five ticks that take `exampleConfig 0` from `E_NAV_INIT` to `E_NAV_RUN`, the fix being
at the origin: init, lock, stabilize, set-next-waypoint, start. -/
def ticksToRun : List (TickInput ℚ) :=
  [fixTick 0 0, fixTick 0 0, quietTick, quietTick, quietTick]

/-- The state of `exampleConfig 0` while it cruises from the origin towards way point `1`
with the update counter at `c`. -/
def cruiseState (c : Nat) : Ctrl ℚ :=
  { geNavState := E_NAV_STATE.E_NAV_RUN
    gTargetWP := 1
    gtWayPoint := [{ flat := 0, flon := 0 }, { flat := 100, flon := 0 },
      { flat := 100, flon := 100 }]
    gtGpsData := { flat := 0, flon := 0, fmph := 0, fcourse := 0 }
    bLocked := true
    dist_to_waypoint := 100
    initial_dist_to_waypoint := 100
    bear_to_waypoint := 0
    update_counter := c
    gps_delay := -1 }


/-- The cruising state with the update counter at `1` (no refresh due) and the running
distance down to `8`, less than a tenth of the initial distance `100`. -/
def nearState : Ctrl ℚ := { cruiseState 1 with dist_to_waypoint := 8 }

/-- The cruising state put back in `E_NAV_START`. -/
def startState : Ctrl ℚ := { cruiseState 0 with geNavState := E_NAV_STATE.E_NAV_START }

/-- The state `startState` with the latched fix at `(60, 0)` and a stale running distance. -/
def startStateAt60 : Ctrl ℚ :=
  { startState with
    dist_to_waypoint := 7
    gtGpsData := { flat := 60, flon := 0, fmph := 0, fcourse := 0 } }

/-- The cruising state put in `E_NAV_SET_NEXT_WAYPOINT`. -/
def setNextState : Ctrl ℚ :=
  { cruiseState 0 with geNavState := E_NAV_STATE.E_NAV_SET_NEXT_WAYPOINT }

/-- The cruising state with the running distance down to `1/2`, inside the switch distance
`1`, and the update counter at `1` (no refresh due). -/
def arrivedState : Ctrl ℚ := { cruiseState 1 with dist_to_waypoint := 1 / 2 }

/-- The cruising state put in `E_NAV_STOP`. -/
def stopState : Ctrl ℚ := { cruiseState 0 with geNavState := E_NAV_STATE.E_NAV_STOP }

/-- The cruising state put in `E_NAV_WAIT_FOR_GPS_RELOCK`. -/
def relockState : Ctrl ℚ :=
  { cruiseState 0 with geNavState := E_NAV_STATE.E_NAV_WAIT_FOR_GPS_RELOCK }

/-- The cruising state put in `E_NAV_IDLE`. -/
def idleState : Ctrl ℚ := { cruiseState 0 with geNavState := E_NAV_STATE.E_NAV_IDLE }

/-- Four ticks after `ticksToRun`: the lock is lost (`E_NAV_RUN` to `E_NAV_STOP`), is still
lost (`E_NAV_STOP` to `E_NAV_WAIT_FOR_GPS_RELOCK`), comes back with the fix at `(40, 0)`
(to `E_NAV_START`), and the heading is on the bearing (to `E_NAV_RUN`). -/
def relockTicks : List (TickInput ℚ) :=
  [noFixTick, noFixTick, fixTick 40 0, quietTick]

/-! ## Theorems -/

@[simp] theorem afterGps_geNavState {K : Type} (inp : TickInput K) (s : Ctrl K) :
    (afterGps inp s).geNavState = s.geNavState := rfl

@[simp] theorem afterGps_gTargetWP {K : Type} (inp : TickInput K) (s : Ctrl K) :
    (afterGps inp s).gTargetWP = s.gTargetWP := rfl

@[simp] theorem afterGps_gtWayPoint {K : Type} (inp : TickInput K) (s : Ctrl K) :
    (afterGps inp s).gtWayPoint = s.gtWayPoint := rfl

@[simp] theorem afterGps_dist_to_waypoint {K : Type} (inp : TickInput K) (s : Ctrl K) :
    (afterGps inp s).dist_to_waypoint = s.dist_to_waypoint := rfl

@[simp] theorem afterGps_initial_dist_to_waypoint {K : Type} (inp : TickInput K)
    (s : Ctrl K) :
    (afterGps inp s).initial_dist_to_waypoint = s.initial_dist_to_waypoint := rfl

@[simp] theorem afterGps_bear_to_waypoint {K : Type} (inp : TickInput K) (s : Ctrl K) :
    (afterGps inp s).bear_to_waypoint = s.bear_to_waypoint := rfl

@[simp] theorem afterGps_update_counter {K : Type} (inp : TickInput K) (s : Ctrl K) :
    (afterGps inp s).update_counter = s.update_counter := rfl

@[simp] theorem afterGps_gps_delay {K : Type} (inp : TickInput K) (s : Ctrl K) :
    (afterGps inp s).gps_delay = s.gps_delay := rfl

@[simp] theorem afterGps_bLocked {K : Type} (inp : TickInput K) (s : Ctrl K) :
    (afterGps inp s).bLocked = lockedAt inp s := rfl

theorem wrapS16_of_range (x : Int) (h0 : -32768 ≤ x) (h1 : x ≤ 32767) : wrapS16 x = x := by
  unfold wrapS16
  omega

theorem nextTargetWP_eq (N i : Int) (hN : 1 ≤ N) (hi : 0 ≤ i) :
    nextTargetWP N i = (i + 1) % N := by
  unfold nextTargetWP
  exact Int.tmod_eq_emod (by omega) (by omega)

theorem nextTargetWP_iterate (N i : Int) (hN : 1 ≤ N) (hi : 0 ≤ i) (hiN : i < N) (k : Nat) :
    (nextTargetWP N)^[k] i = (i + k) % N := by
  induction k with
  | zero => simp [Int.emod_eq_of_lt hi hiN]
  | succ k ih =>
    rw [Function.iterate_succ_apply', ih,
      nextTargetWP_eq N _ hN (Int.emod_nonneg _ (by omega))]
    push_cast
    rw [Int.emod_add_emod, add_assoc]

section Theorems

variable {K : Type} [LinearOrderedField K]

/-! ### The turn decision -/

theorem DirectionToBearing_straight_iff (d c t : K) :
    DirectionToBearing d c t = some E_DIRECTION.E_GO_STRAIGHT ↔ |d - c| ≤ t := by
  unfold DirectionToBearing
  by_cases h : |d - c| ≤ t
  · simp [h]
  · by_cases hn : d - c < 0 <;> by_cases hb : (180 : K) < |d - c| <;> simp [h, hn, hb]

theorem DirectionToBearing_right_iff (d c t : K) :
    DirectionToBearing d c t = some E_DIRECTION.E_GO_RIGHT ↔
      t < |d - c| ∧ ((0 ≤ d - c ∧ |d - c| ≤ 180) ∨ (d - c < 0 ∧ 180 < |d - c|)) := by
  unfold DirectionToBearing
  by_cases h : |d - c| ≤ t
  · simp [h]
  · by_cases hn : d - c < 0 <;> by_cases hb : (180 : K) < |d - c| <;>
      simp [h, hn, hb, lt_of_not_ge h, le_of_not_lt, not_le.mpr]

theorem DirectionToBearing_left_iff (d c t : K) :
    DirectionToBearing d c t = some E_DIRECTION.E_GO_LEFT ↔
      t < |d - c| ∧ ((0 ≤ d - c ∧ 180 < |d - c|) ∨ (d - c < 0 ∧ |d - c| ≤ 180)) := by
  unfold DirectionToBearing
  by_cases h : |d - c| ≤ t
  · simp [h]
  · by_cases hn : d - c < 0 <;> by_cases hb : (180 : K) < |d - c| <;>
      simp [h, hn, hb, lt_of_not_ge h, le_of_not_lt, not_le.mpr]

theorem mod360_of_nonneg [FloorRing K] (x : K) (h0 : 0 ≤ x) (h1 : x < 360) :
    mod360 x = x := by
  have hf : ⌊x / 360⌋ = 0 := by
    rw [Int.floor_eq_iff]
    constructor
    · simpa using div_nonneg h0 (by norm_num : (0 : K) ≤ 360)
    · rw [div_lt_iff₀ (by norm_num : (0 : K) < 360)]; simpa using h1
  simp [mod360, hf]

theorem mod360_of_neg [FloorRing K] (x : K) (h0 : -360 ≤ x) (h1 : x < 0) :
    mod360 x = x + 360 := by
  have hf : ⌊x / 360⌋ = -1 := by
    rw [Int.floor_eq_iff]
    constructor
    · rw [le_div_iff₀ (by norm_num : (0 : K) < 360)]; push_cast; linarith
    · rw [div_lt_iff₀ (by norm_num : (0 : K) < 360)]; push_cast; linarith
  simp [mod360, hf]

/-- C1 (evaluation at the failing input): destination `359`, heading `1`, tolerance `5`.
The two bearings are `2` degrees apart, within the tolerance, yet `DirectionToBearing`
answers `E_GO_LEFT`, not `E_GO_STRAIGHT`: the dead band test uses `|d - c| = 358`. -/
theorem DirectionToBearing_deadband_misses_wraparound :
    min |(359 : ℚ) - 1| (360 - |(359 : ℚ) - 1|) ≤ 5 ∧
      DirectionToBearing (359 : ℚ) 1 5 = some E_DIRECTION.E_GO_LEFT ∧
      DirectionToBearing (359 : ℚ) 1 5 ≠ some E_DIRECTION.E_GO_STRAIGHT ∧
      DirectionToBearing (100 : ℚ) 100 1 = some E_DIRECTION.E_GO_STRAIGHT := by
  refine ⟨?_, ?_, ?_, ?_⟩
  · norm_num
  · norm_num [DirectionToBearing]
  · norm_num [DirectionToBearing]
    decide
  · norm_num [DirectionToBearing]

/-! ### Heading normalisation -/

theorem degrees_nonneg (pi x : K) (hpi : 0 < pi) (hx : 0 ≤ x) : 0 ≤ degrees pi x := by
  unfold degrees
  exact mul_nonneg hx (div_nonneg (by norm_num) hpi.le)

theorem degrees_lt_360 (pi x : K) (hpi : 0 < pi) (hx : x < TWO_PI pi) :
    degrees pi x < 360 := by
  unfold degrees TWO_PI at *
  have h180 : (0 : K) < 180 / pi := div_pos (by norm_num) hpi
  calc x * (180 / pi) < 2 * pi * (180 / pi) := mul_lt_mul_of_pos_right hx h180
    _ = 360 := by field_simp; ring

/-- C3 (counterexample): with the raw angle `-π/2` and a declination of `350` degrees, both
inside the claimed domain, `GetCompassHeading` returns `-80`, which is not in `[0, 360)`:
the single addition of a full turn does not bring `-440` degrees back into range. -/
theorem GetCompassHeading_negative_result :
    (-Real.pi < -(Real.pi / 2) ∧ -(Real.pi / 2) ≤ Real.pi) ∧
      ((-360 : ℝ) < 350 ∧ (350 : ℝ) < 360) ∧
      GetCompassHeading Real.pi (-(Real.pi / 2)) 350 = -80 ∧
      ¬ (0 ≤ GetCompassHeading Real.pi (-(Real.pi / 2)) 350 ∧
          GetCompassHeading Real.pi (-(Real.pi / 2)) 350 < 360) := by
  have hpi := Real.pi_pos
  have hv : GetCompassHeading Real.pi (-(Real.pi / 2)) 350 = -80 := by
    unfold GetCompassHeading radians TWO_PI degrees
    have h0 : -(Real.pi / 2) - 350 * (Real.pi / 180) < 0 := by linarith
    have h1 : ¬ (-(Real.pi / 2) - 350 * (Real.pi / 180) + 2 * Real.pi > 2 * Real.pi) := by
      simp only [gt_iff_lt, not_lt]; linarith
    simp only [h0, if_true, h1, if_false]
    field_simp
    ring
  refine ⟨⟨by linarith, by linarith⟩, ⟨by norm_num, by norm_num⟩, hv, ?_⟩
  rw [hv]
  norm_num

/-! ### The state machine: single ticks -/

theorem loop_LOCK_locked (cfg : Config K) (inp : TickInput K) (s : Ctrl K)
    (hs : s.geNavState = E_NAV_STATE.E_NAV_WAIT_FOR_GPS_LOCK) (hl : lockedAt inp s = true) :
    (loop cfg inp s).1.geNavState = E_NAV_STATE.E_NAV_WAIT_FOR_GPS_STABLIZE ∧
      (loop cfg inp s).1.gps_delay = wrapS16 cfg.GPS_STABALIZE_LOCK_TIME := by
  simp [loop, navStep, hs, hl]

theorem loop_LOCK_unlocked (cfg : Config K) (inp : TickInput K) (s : Ctrl K)
    (hs : s.geNavState = E_NAV_STATE.E_NAV_WAIT_FOR_GPS_LOCK) (hl : lockedAt inp s = false) :
    loop cfg inp s = (afterGps inp s, []) := by
  simp [loop, navStep, hs, hl]

theorem loop_STABLIZE_wait (cfg : Config K) (inp : TickInput K) (s : Ctrl K)
    (hs : s.geNavState = E_NAV_STATE.E_NAV_WAIT_FOR_GPS_STABLIZE) (hd : s.gps_delay ≠ 0) :
    (loop cfg inp s).1.geNavState = E_NAV_STATE.E_NAV_WAIT_FOR_GPS_STABLIZE ∧
      (loop cfg inp s).1.gps_delay = wrapS16 (s.gps_delay - 1) := by
  simp [loop, navStep, hs, hd]

theorem loop_STABLIZE_exit (cfg : Config K) (inp : TickInput K) (s : Ctrl K)
    (hs : s.geNavState = E_NAV_STATE.E_NAV_WAIT_FOR_GPS_STABLIZE) (hd : s.gps_delay = 0) :
    (loop cfg inp s).1.geNavState =
      (if cfg.DO_GPS_TEST then E_NAV_STATE.E_NAV_IDLE
        else E_NAV_STATE.E_NAV_SET_NEXT_WAYPOINT) := by
  simp [loop, navStep, hs, hd]

theorem loop_update_counter (cfg : Config K) (inp : TickInput K) (s : Ctrl K) :
    (loop cfg inp s).1.update_counter =
      if s.geNavState = E_NAV_STATE.E_NAV_RUN then (s.update_counter + 1) % 256
      else s.update_counter := by
  unfold loop navStep
  cases hs : s.geNavState <;> simp only [afterGps_geNavState, hs] <;>
    (repeat' split) <;> simp_all [wrapU8]

theorem loop_RUN_refresh (cfg : Config K) (inp : TickInput K) (s : Ctrl K)
    (hs : s.geNavState = E_NAV_STATE.E_NAV_RUN) :
    (loop cfg inp s).1.dist_to_waypoint =
        (if s.update_counter % 10 = 0 then
          cfg.distance_between (afterGps inp s).gtGpsData.flat (afterGps inp s).gtGpsData.flon
            (wayPointAt s.gtWayPoint s.gTargetWP).flat (wayPointAt s.gtWayPoint s.gTargetWP).flon
        else s.dist_to_waypoint) ∧
      (loop cfg inp s).1.bear_to_waypoint =
        (if s.update_counter % 10 = 0 then
          cfg.course_to (afterGps inp s).gtGpsData.flat (afterGps inp s).gtGpsData.flon
            (wayPointAt s.gtWayPoint s.gTargetWP).flat (wayPointAt s.gtWayPoint s.gTargetWP).flon
        else s.bear_to_waypoint) := by
  unfold loop navStep
  simp only [afterGps_geNavState, hs, refreshDue]
  by_cases hc : s.update_counter % 10 = 0 <;> by_cases hl : lockedAt inp s = false <;>
    simp [hc, hl] <;> (try split) <;> simp

/-! ### The state machine: runs -/

theorem run_append (cfg : Config K) (a b : List (TickInput K)) :
    ∀ s : Ctrl K, run cfg s (a ++ b) =
      ((run cfg (run cfg s a).1 b).1, (run cfg s a).2 ++ (run cfg (run cfg s a).1 b).2) := by
  induction a with
  | nil => intro s; simp [run]
  | cons inp rest ih => intro s; simp [run, ih, List.append_assoc]

theorem ticksInState_append (cfg : Config K) (st : E_NAV_STATE) (a b : List (TickInput K)) :
    ∀ s : Ctrl K, ticksInState cfg st s (a ++ b) =
      ticksInState cfg st s a + ticksInState cfg st (run cfg s a).1 b := by
  induction a with
  | nil => intro s; simp [run, ticksInState]
  | cons inp rest ih => intro s; simp [run, ticksInState, ih, Nat.add_assoc]

/-- The update counter counts the ticks executed in `E_NAV_RUN` modulo `256`. -/
theorem run_update_counter (cfg : Config K) (inputs : List (TickInput K)) :
    ∀ s : Ctrl K, (run cfg s inputs).1.update_counter =
      if ticksInState cfg E_NAV_STATE.E_NAV_RUN s inputs = 0 then s.update_counter
      else (s.update_counter + ticksInState cfg E_NAV_STATE.E_NAV_RUN s inputs) % 256 := by
  induction inputs with
  | nil => intro s; simp [run, ticksInState]
  | cons inp rest ih =>
    intro s
    simp only [run, ticksInState, ih, loop_update_counter]
    by_cases hs : s.geNavState = E_NAV_STATE.E_NAV_RUN
    · simp only [hs, if_true]
      split
      · simp_all
      · have : ¬ (1 + ticksInState cfg E_NAV_STATE.E_NAV_RUN (loop cfg inp s).1 rest = 0) := by
          omega
        simp only [this, if_false]
        omega
    · simp [hs]

theorem run_STABLIZE (cfg : Config K) (inputs : List (TickInput K)) :
    ∀ s : Ctrl K, s.geNavState = E_NAV_STATE.E_NAV_WAIT_FOR_GPS_STABLIZE →
      0 ≤ s.gps_delay → s.gps_delay ≤ 32767 →
      (inputs.length ≤ s.gps_delay.toNat →
        (run cfg s inputs).1.geNavState = E_NAV_STATE.E_NAV_WAIT_FOR_GPS_STABLIZE) ∧
      (inputs.length = s.gps_delay.toNat + 1 →
        (run cfg s inputs).1.geNavState =
            (if cfg.DO_GPS_TEST then E_NAV_STATE.E_NAV_IDLE
              else E_NAV_STATE.E_NAV_SET_NEXT_WAYPOINT) ∧
          ticksInState cfg E_NAV_STATE.E_NAV_WAIT_FOR_GPS_STABLIZE s inputs
            = s.gps_delay.toNat + 1) := by
  induction inputs with
  | nil =>
    intro s hs _ _
    exact ⟨fun _ => hs, fun h => by simp at h⟩
  | cons inp rest ih =>
    intro s hs h0 h1
    by_cases hd : s.gps_delay = 0
    · have hx := loop_STABLIZE_exit cfg inp s hs hd
      constructor
      · intro hlen
        simp [hd] at hlen
      · intro hlen
        have hr : rest = [] := by
          simp [hd] at hlen
          exact hlen
        subst hr
        simp [run, ticksInState, hx, hs, hd]
    · obtain ⟨hst, hdl⟩ := loop_STABLIZE_wait cfg inp s hs hd
      rw [wrapS16_of_range _ (by omega) (by omega)] at hdl
      have ih' := ih (loop cfg inp s).1 hst (by omega) (by omega)
      have htn : (loop cfg inp s).1.gps_delay.toNat + 1 = s.gps_delay.toNat := by
        rw [hdl]; omega
      constructor
      · intro hlen
        simp only [run]
        apply ih'.1
        simp only [List.length_cons] at hlen
        omega
      · intro hlen
        simp only [run, ticksInState, hs, if_true]
        have := ih'.2 (by simp only [List.length_cons] at hlen; omega)
        refine ⟨this.1, ?_⟩
        rw [this.2]
        omega

theorem run_LOCK_unlocked (cfg : Config K) (inputs : List (TickInput K)) :
    ∀ s : Ctrl K, s.geNavState = E_NAV_STATE.E_NAV_WAIT_FOR_GPS_LOCK →
      (∀ b ∈ lockedTrace cfg s inputs, b = false) →
      (run cfg s inputs).1.geNavState = E_NAV_STATE.E_NAV_WAIT_FOR_GPS_LOCK ∧
        (run cfg s inputs).1.gTargetWP = s.gTargetWP ∧ (run cfg s inputs).2 = [] := by
  induction inputs with
  | nil => intro s hs _; exact ⟨hs, rfl, rfl⟩
  | cons inp rest ih =>
    intro s hs hl
    have h0 : lockedAt inp s = false := hl _ (by simp [lockedTrace])
    have hstep := loop_LOCK_unlocked cfg inp s hs h0
    have ih' := ih (loop cfg inp s).1 (by rw [hstep]; exact hs)
      (fun b hb => hl b (by simp only [lockedTrace, List.mem_cons]; exact Or.inr hb))
    simp only [run]
    refine ⟨ih'.1, ?_, ?_⟩
    · rw [ih'.2.1, hstep]; rfl
    · rw [ih'.2.2, hstep]; rfl

/-! ### Claims about the state machine -/

/-- C4: in `E_NAV_SET_NEXT_WAYPOINT`, for a table length `N ≥ 1` and a target index `i` in
`[0, N)`, the tick sets the index to `(i + 1) mod N`, again in `[0, N)`; this is the update
`nextTargetWP`, and `k` successive updates from `i` give `(i + k) mod N`; for `N = 3` from
`0` the indices are `1, 2, 0, 1, 2, 0`. -/
theorem setNextWaypoint_index_cycle (cfg : Config K) (inp : TickInput K) (s : Ctrl K)
    (hN : 1 ≤ cfg.NUM_WAY_POINTS)
    (hs : s.geNavState = E_NAV_STATE.E_NAV_SET_NEXT_WAYPOINT)
    (hi : 0 ≤ s.gTargetWP ∧ s.gTargetWP < cfg.NUM_WAY_POINTS) :
    (loop cfg inp s).1.gTargetWP = (s.gTargetWP + 1) % cfg.NUM_WAY_POINTS ∧
      (0 ≤ (loop cfg inp s).1.gTargetWP ∧
        (loop cfg inp s).1.gTargetWP < cfg.NUM_WAY_POINTS) ∧
      (loop cfg inp s).1.gTargetWP = nextTargetWP cfg.NUM_WAY_POINTS s.gTargetWP ∧
      (∀ k : Nat, (nextTargetWP cfg.NUM_WAY_POINTS)^[k] s.gTargetWP =
        (s.gTargetWP + k) % cfg.NUM_WAY_POINTS) ∧
      List.map (fun k => (nextTargetWP 3)^[k] 0) [1, 2, 3, 4, 5, 6] = [1, 2, 0, 1, 2, 0] := by
  have h1 : (loop cfg inp s).1.gTargetWP = nextTargetWP cfg.NUM_WAY_POINTS s.gTargetWP := by
    simp [loop, navStep, hs]
  have h2 := nextTargetWP_eq cfg.NUM_WAY_POINTS s.gTargetWP hN hi.1
  refine ⟨h1.trans h2, ?_, h1, fun k => nextTargetWP_iterate _ _ hN hi.1 hi.2 k, by decide⟩
  rw [h1, h2]
  exact ⟨Int.emod_nonneg _ (by omega), Int.emod_lt_of_pos _ (by omega)⟩

/-- C5 (amended): after a tick in `E_NAV_WAIT_FOR_GPS_LOCK` that observes the lock, with a
configured countdown `0 ≤ K ≤ 32767`, the machine is in `E_NAV_WAIT_FOR_GPS_STABLIZE`; it
is still there after any `j ≤ K` further ticks, whatever their inputs, and after `K + 1`
further ticks, all `K + 1` of them executed in `E_NAV_WAIT_FOR_GPS_STABLIZE`, it is in
`E_NAV_SET_NEXT_WAYPOINT` (in `E_NAV_IDLE` when built with `DO_GPS_TEST`). -/
theorem stabilize_wait_ticks (cfg : Config K) (inp0 : TickInput K) (s0 : Ctrl K)
    (hK : 0 ≤ cfg.GPS_STABALIZE_LOCK_TIME ∧ cfg.GPS_STABALIZE_LOCK_TIME ≤ 32767)
    (hs : s0.geNavState = E_NAV_STATE.E_NAV_WAIT_FOR_GPS_LOCK)
    (hl : lockedAt inp0 s0 = true) (inputs : List (TickInput K)) :
    (loop cfg inp0 s0).1.geNavState = E_NAV_STATE.E_NAV_WAIT_FOR_GPS_STABLIZE ∧
      (inputs.length ≤ cfg.GPS_STABALIZE_LOCK_TIME.toNat →
        (run cfg (loop cfg inp0 s0).1 inputs).1.geNavState
          = E_NAV_STATE.E_NAV_WAIT_FOR_GPS_STABLIZE) ∧
      (inputs.length = cfg.GPS_STABALIZE_LOCK_TIME.toNat + 1 →
        (run cfg (loop cfg inp0 s0).1 inputs).1.geNavState =
            (if cfg.DO_GPS_TEST then E_NAV_STATE.E_NAV_IDLE
              else E_NAV_STATE.E_NAV_SET_NEXT_WAYPOINT) ∧
          ticksInState cfg E_NAV_STATE.E_NAV_WAIT_FOR_GPS_STABLIZE (loop cfg inp0 s0).1 inputs
            = cfg.GPS_STABALIZE_LOCK_TIME.toNat + 1) := by
  obtain ⟨hst, hdl⟩ := loop_LOCK_locked cfg inp0 s0 hs hl
  rw [wrapS16_of_range _ (by omega) (by omega)] at hdl
  have h := run_STABLIZE cfg inputs (loop cfg inp0 s0).1 hst (by omega) (by omega)
  rw [hdl] at h
  exact ⟨hst, h⟩

/-- C6 (amended): a tick in `E_NAV_RUN` with `locked = false` leaves the machine in
`E_NAV_STOP`, for every heading and all values of the session variables, and makes no
actuator call.  A tick in `E_NAV_START` does not test the lock: with `locked = false` it
does what it does with `locked = true`, and leaves the machine in `E_NAV_START` or
`E_NAV_RUN`. -/
theorem lock_loss_in_RUN_and_START (cfg : Config K) (h : K) (s : Ctrl K) :
    (s.geNavState = E_NAV_STATE.E_NAV_RUN →
        (navStep cfg false h s).1.geNavState = E_NAV_STATE.E_NAV_STOP ∧
          (navStep cfg false h s).2 = []) ∧
      (s.geNavState = E_NAV_STATE.E_NAV_START →
        navStep cfg false h s = navStep cfg true h s ∧
          ((navStep cfg false h s).1.geNavState = E_NAV_STATE.E_NAV_START ∨
            (navStep cfg false h s).1.geNavState = E_NAV_STATE.E_NAV_RUN)) := by
  constructor
  · intro hs
    simp [navStep, hs]
  · intro hs
    refine ⟨by simp [navStep, hs], ?_⟩
    unfold navStep
    simp only [hs]
    split <;> simp [hs]

theorem runBearingTolerance_eq (cfg : Config K) (d i : K) :
    runBearingTolerance cfg d i =
      if d ≤ i / 10 then cfg.DEGREES_TO_BEARING_TOLERANCE / 2
      else cfg.DEGREES_TO_BEARING_TOLERANCE := by
  unfold runBearingTolerance
  have e1 : i * (10 / 100) = i / 10 := by ring
  have e2 : cfg.DEGREES_TO_BEARING_TOLERANCE * (5 / 10) = cfg.DEGREES_TO_BEARING_TOLERANCE / 2 := by
    ring
  rw [e1, e2]

/-- C8: in a tick in `E_NAV_RUN` with `locked = true` the initial distance is not changed,
and the actuator calls are those of the turn decision `DirectionToBearing` taken with half
of `DEGREES_TO_BEARING_TOLERANCE` when the distance to the way point (as held after the
tick's refresh) is at most a tenth of the initial distance, and with
`DEGREES_TO_BEARING_TOLERANCE` itself otherwise; they are followed by `SetSpeed(SPEED_STOP)`
exactly when the distance is within `SWITCH_WAYPOINT_DISTANCE`. -/
theorem run_tick_tolerance (cfg : Config K) (h : K) (s : Ctrl K)
    (hs : s.geNavState = E_NAV_STATE.E_NAV_RUN) :
    (navStep cfg true h s).1.initial_dist_to_waypoint = s.initial_dist_to_waypoint ∧
      ((navStep cfg true h s).1.dist_to_waypoint ≤ s.initial_dist_to_waypoint / 10 →
        (navStep cfg true h s).2 =
          runSteer cfg (DirectionToBearing (navStep cfg true h s).1.bear_to_waypoint h
              (cfg.DEGREES_TO_BEARING_TOLERANCE / 2)) ++
            (if (navStep cfg true h s).1.dist_to_waypoint ≤ cfg.SWITCH_WAYPOINT_DISTANCE then
              [Cmd.SetSpeed cfg.SPEED_STOP] else [])) ∧
      (¬ (navStep cfg true h s).1.dist_to_waypoint ≤ s.initial_dist_to_waypoint / 10 →
        (navStep cfg true h s).2 =
          runSteer cfg (DirectionToBearing (navStep cfg true h s).1.bear_to_waypoint h
              cfg.DEGREES_TO_BEARING_TOLERANCE) ++
            (if (navStep cfg true h s).1.dist_to_waypoint ≤ cfg.SWITCH_WAYPOINT_DISTANCE then
              [Cmd.SetSpeed cfg.SPEED_STOP] else [])) := by
  cases hc : refreshDue s.update_counter
  all_goals
    refine ⟨?_, fun hle => ?_, fun hle => ?_⟩
    · simp only [navStep, hs, hc]
      split_ifs <;> simp
    · simp only [navStep, hs, hc, runBearingTolerance_eq] at hle ⊢
      split_ifs at hle ⊢ <;> simp_all
    · simp only [navStep, hs, hc, runBearingTolerance_eq] at hle ⊢
      split_ifs at hle ⊢ <;> simp_all

/-- C9: from the initial state, after `n ≥ 1` ticks on each of which `UpdateGps` returns
`false`, whatever the headings and samples, the machine is in `E_NAV_WAIT_FOR_GPS_LOCK`
with target index `0`, and no `SetSpeed` or `SetRudder` call has been made. -/
theorem no_lock_no_motion (cfg : Config K) (inputs : List (TickInput K))
    (hn : 1 ≤ inputs.length)
    (hl : ∀ b ∈ lockedTrace cfg (initCtrl cfg) inputs, b = false) :
    (run cfg (initCtrl cfg) inputs).1.geNavState = E_NAV_STATE.E_NAV_WAIT_FOR_GPS_LOCK ∧
      (run cfg (initCtrl cfg) inputs).1.gTargetWP = 0 ∧
      (run cfg (initCtrl cfg) inputs).2 = [] := by
  cases inputs with
  | nil => simp at hn
  | cons inp rest =>
    have hstep : loop cfg inp (initCtrl cfg) =
        ({ afterGps inp (initCtrl cfg) with
            gTargetWP := 0, geNavState := E_NAV_STATE.E_NAV_WAIT_FOR_GPS_LOCK }, []) := by
      simp [loop, navStep, initCtrl]
    have h := run_LOCK_unlocked cfg rest (loop cfg inp (initCtrl cfg)).1 (by rw [hstep])
      (fun b hb => hl b (by simp only [lockedTrace, List.mem_cons]; exact Or.inr hb))
    simp only [run]
    refine ⟨h.1, ?_, ?_⟩
    · rw [h.2.1, hstep]
    · rw [h.2.2, hstep]; rfl

/-- C10: a tick in `E_NAV_START`, for every lock value, heading, bearing and fix.  When
`DirectionToBearing` with `DEGREES_TO_BEARING_TOLERANCE` answers `E_GO_LEFT` (resp.
`E_GO_RIGHT`) the calls are `SetRudder(RUDDER_FULL_LEFT)` (resp. `RUDDER_FULL_RIGHT`) then
`SetSpeed(SPEED_25_PERCENT)` and the controller state is unchanged, so the machine stays in
`E_NAV_START`.  When it answers `E_GO_STRAIGHT` the calls are `SetRudder(RUDDER_CENTER)`
then `SetSpeed(SPEED_50_PERCENT)`, the machine moves to `E_NAV_RUN`, and the initial and
the running distance are both set to the distance from the latched fix to the target way
point; nothing else changes. -/
theorem start_tick (cfg : Config K) (b : Bool) (h : K) (s : Ctrl K)
    (hs : s.geNavState = E_NAV_STATE.E_NAV_START) :
    (DirectionToBearing s.bear_to_waypoint h cfg.DEGREES_TO_BEARING_TOLERANCE
          = some E_DIRECTION.E_GO_LEFT →
        navStep cfg b h s =
          (s, [Cmd.SetRudder cfg.RUDDER_FULL_LEFT, Cmd.SetSpeed cfg.SPEED_25_PERCENT])) ∧
      (DirectionToBearing s.bear_to_waypoint h cfg.DEGREES_TO_BEARING_TOLERANCE
          = some E_DIRECTION.E_GO_RIGHT →
        navStep cfg b h s =
          (s, [Cmd.SetRudder cfg.RUDDER_FULL_RIGHT, Cmd.SetSpeed cfg.SPEED_25_PERCENT])) ∧
      (DirectionToBearing s.bear_to_waypoint h cfg.DEGREES_TO_BEARING_TOLERANCE
          = some E_DIRECTION.E_GO_STRAIGHT →
        navStep cfg b h s =
          ({ s with
              geNavState := E_NAV_STATE.E_NAV_RUN
              initial_dist_to_waypoint :=
                cfg.distance_between s.gtGpsData.flat s.gtGpsData.flon
                  (wayPointAt s.gtWayPoint s.gTargetWP).flat
                  (wayPointAt s.gtWayPoint s.gTargetWP).flon
              dist_to_waypoint :=
                cfg.distance_between s.gtGpsData.flat s.gtGpsData.flon
                  (wayPointAt s.gtWayPoint s.gTargetWP).flat
                  (wayPointAt s.gtWayPoint s.gTargetWP).flon },
            [Cmd.SetRudder cfg.RUDDER_CENTER, Cmd.SetSpeed cfg.SPEED_50_PERCENT])) := by
  refine ⟨fun hd => ?_, fun hd => ?_, fun hd => ?_⟩ <;> simp [navStep, hs, hd]

/-! ### More on the turn decision and the heading -/

theorem DirectionToBearing_ne_none (d c t : K) : DirectionToBearing d c t ≠ none := by
  unfold DirectionToBearing
  by_cases h : |d - c| ≤ t
  · simp [h]
  · by_cases hn : d - c < 0 <;> by_cases hb : (180 : K) < |d - c| <;> simp [h, hn, hb]

/-- C16: for every destination bearing, current bearing and tolerance, the value returned
by `DirectionToBearing` has been assigned (it is never the uninitialised local): either
`|Diff| ≤ BearingTolerance` and the result is `E_GO_STRAIGHT`, or exactly one of the four
guards `!bNeg && !bBig`, `!bNeg && bBig`, `bNeg && !bBig`, `bNeg && bBig` holds and the
result is `E_GO_LEFT` or `E_GO_RIGHT`. -/
theorem DirectionToBearing_total (d c t : K) :
    DirectionToBearing d c t ≠ none ∧
      ((|d - c| ≤ t ∧ DirectionToBearing d c t = some E_DIRECTION.E_GO_STRAIGHT) ∨
        (¬ |d - c| ≤ t ∧
          [!decide (d - c < 0) && !decide (|d - c| > 180),
            !decide (d - c < 0) && decide (|d - c| > 180),
            decide (d - c < 0) && !decide (|d - c| > 180),
            decide (d - c < 0) && decide (|d - c| > 180)].count true = 1 ∧
          (DirectionToBearing d c t = some E_DIRECTION.E_GO_LEFT ∨
            DirectionToBearing d c t = some E_DIRECTION.E_GO_RIGHT))) := by
  unfold DirectionToBearing
  by_cases h : |d - c| ≤ t
  · simp [h]
  · by_cases hn : d - c < 0 <;> by_cases hb : (180 : K) < |d - c| <;> simp [h, hn, hb]

/-- C17: for all bearings `a`, `b` and every tolerance `t ≥ 0`, `DirectionToBearing a b t`
is `E_GO_STRAIGHT` exactly when `DirectionToBearing b a t` is, and swapping the two
bearings turns `E_GO_LEFT` into `E_GO_RIGHT` and `E_GO_RIGHT` into `E_GO_LEFT`. -/
theorem DirectionToBearing_swap (a b t : K) (ht : 0 ≤ t) :
    (DirectionToBearing a b t = some E_DIRECTION.E_GO_STRAIGHT ↔
        DirectionToBearing b a t = some E_DIRECTION.E_GO_STRAIGHT) ∧
      (DirectionToBearing a b t = some E_DIRECTION.E_GO_LEFT ↔
        DirectionToBearing b a t = some E_DIRECTION.E_GO_RIGHT) ∧
      (DirectionToBearing a b t = some E_DIRECTION.E_GO_RIGHT ↔
        DirectionToBearing b a t = some E_DIRECTION.E_GO_LEFT) := by
  have habs : |b - a| = |a - b| := abs_sub_comm b a
  have key : t < |a - b| → ((0 ≤ a - b ↔ b - a < 0) ∧ (a - b < 0 ↔ 0 ≤ b - a)) := by
    intro hlt
    have hne : a - b ≠ 0 := by
      intro h0
      rw [h0, abs_zero] at hlt
      exact absurd hlt (not_lt.mpr ht)
    constructor
    · constructor
      · intro h; have := lt_of_le_of_ne h (Ne.symm hne); linarith
      · intro h; linarith
    · constructor
      · intro h; linarith
      · intro h; rcases lt_or_gt_of_ne hne with h1 | h1
        · exact h1
        · linarith
  refine ⟨?_, ?_, ?_⟩
  · rw [DirectionToBearing_straight_iff, DirectionToBearing_straight_iff, habs]
  · rw [DirectionToBearing_left_iff, DirectionToBearing_right_iff, habs]
    constructor
    · rintro ⟨hlt, h⟩
      obtain ⟨k1, k2⟩ := key hlt
      refine ⟨hlt, ?_⟩
      rcases h with ⟨h0, hb⟩ | ⟨hn, hs⟩
      · exact Or.inr ⟨k1.mp h0, hb⟩
      · exact Or.inl ⟨k2.mp hn, hs⟩
    · rintro ⟨hlt, h⟩
      obtain ⟨k1, k2⟩ := key hlt
      refine ⟨hlt, ?_⟩
      rcases h with ⟨h0, hs⟩ | ⟨hn, hb⟩
      · exact Or.inr ⟨k2.mpr h0, hs⟩
      · exact Or.inl ⟨k1.mpr hn, hb⟩
  · rw [DirectionToBearing_right_iff, DirectionToBearing_left_iff, habs]
    constructor
    · rintro ⟨hlt, h⟩
      obtain ⟨k1, k2⟩ := key hlt
      refine ⟨hlt, ?_⟩
      rcases h with ⟨h0, hs⟩ | ⟨hn, hb⟩
      · exact Or.inr ⟨k1.mp h0, hs⟩
      · exact Or.inl ⟨k2.mp hn, hb⟩
    · rintro ⟨hlt, h⟩
      obtain ⟨k1, k2⟩ := key hlt
      refine ⟨hlt, ?_⟩
      rcases h with ⟨h0, hb⟩ | ⟨hn, hs⟩
      · exact Or.inr ⟨k2.mpr h0, hb⟩
      · exact Or.inl ⟨k1.mpr hn, hs⟩

theorem degrees_sub_radians (pi a decl : K) (hpi : 0 < pi) :
    degrees pi (a - radians pi decl) = degrees pi a - decl := by
  unfold degrees radians
  have : pi ≠ 0 := ne_of_gt hpi
  field_simp
  ring

theorem degrees_TWO_PI (pi : K) (hpi : 0 < pi) : degrees pi (TWO_PI pi) = 360 := by
  unfold degrees TWO_PI
  have : pi ≠ 0 := ne_of_gt hpi
  field_simp
  ring

theorem degrees_add (pi x y : K) : degrees pi (x + y) = degrees pi x + degrees pi y := by
  unfold degrees
  ring

/-- C19: for a raw angle `a` in `(-π, π]` and a declination strictly between `-180` and
`180` degrees, the value returned by `GetCompassHeading` lies in `[0, 360)` and is `a` in
degrees minus the declination, or that plus `360`: it is congruent to it modulo `360`. -/
theorem GetCompassHeading_small_declination (pi a decl : K) (hpi : 0 < pi)
    (ha : -pi < a ∧ a ≤ pi) (hd : -180 < decl ∧ decl < 180) :
    (0 ≤ GetCompassHeading pi a decl ∧ GetCompassHeading pi a decl < 360) ∧
      (GetCompassHeading pi a decl = degrees pi a - decl ∨
        GetCompassHeading pi a decl = degrees pi a - decl + 360) ∧
      ∃ k : ℤ, GetCompassHeading pi a decl = degrees pi a - decl + 360 * (k : K) := by
  have hr1 : radians pi decl < pi := by
    unfold radians
    have : decl * (pi / 180) < 180 * (pi / 180) :=
      mul_lt_mul_of_pos_right hd.2 (div_pos hpi (by norm_num))
    have e : (180 : K) * (pi / 180) = pi := by ring
    linarith
  have hr2 : -pi < radians pi decl := by
    unfold radians
    have : (-180 : K) * (pi / 180) < decl * (pi / 180) :=
      mul_lt_mul_of_pos_right hd.1 (div_pos hpi (by norm_num))
    have e : (-180 : K) * (pi / 180) = -pi := by ring
    linarith
  have h2 : TWO_PI pi = 2 * pi := rfl
  have hval : (0 ≤ GetCompassHeading pi a decl ∧ GetCompassHeading pi a decl < 360) ∧
      (GetCompassHeading pi a decl = degrees pi a - decl ∨
        GetCompassHeading pi a decl = degrees pi a - decl + 360) := by
    unfold GetCompassHeading
    by_cases h0 : a - radians pi decl < 0
    · have hlt : ¬ (a - radians pi decl + TWO_PI pi > TWO_PI pi) := by
        simp only [gt_iff_lt, not_lt]; linarith
      simp only [h0, if_true, hlt, if_false]
      refine ⟨⟨degrees_nonneg pi _ hpi (by linarith [ha.1]),
        degrees_lt_360 pi _ hpi (by linarith)⟩, Or.inr ?_⟩
      rw [degrees_add, degrees_sub_radians pi a decl hpi, degrees_TWO_PI pi hpi]
    · have h1 : ¬ (a - radians pi decl > TWO_PI pi) := by
        simp only [gt_iff_lt, not_lt]; linarith [ha.2]
      simp only [h0, if_false, h1]
      exact ⟨⟨degrees_nonneg pi _ hpi (not_lt.mp h0),
        degrees_lt_360 pi _ hpi (by linarith [ha.2])⟩,
        Or.inl (degrees_sub_radians pi a decl hpi)⟩
  refine ⟨hval.1, hval.2, ?_⟩
  rcases hval.2 with h | h
  · exact ⟨0, by rw [h]; simp⟩
  · exact ⟨1, by rw [h]; simp⟩

/-! ### Further claims about single ticks -/

/-- C11: a tick in `E_NAV_RUN` with `locked = true`.  The actuator calls are those of the
turn decision (`E_GO_LEFT`: `SetRudder(RUDDER_LEFT)` only; `E_GO_RIGHT`:
`SetRudder(RUDDER_RIGHT)` only; `E_GO_STRAIGHT`: `SetRudder(RUDDER_CENTER)` then
`SetSpeed(SPEED_100_PERCENT)`), followed by `SetSpeed(SPEED_STOP)` when the distance held
after the tick's refresh is within `SWITCH_WAYPOINT_DISTANCE`.  The machine moves to
`E_NAV_SET_NEXT_WAYPOINT` exactly in that case, and then the last call of the tick is
`SetSpeed(SPEED_STOP)`; otherwise it stays in `E_NAV_RUN`, the calls are the steering calls
alone, and no `SetSpeed(SPEED_STOP)` is among them (the full-speed and stop settings being
different values). -/
theorem run_tick_with_lock (cfg : Config K) (h : K) (s : Ctrl K)
    (hs : s.geNavState = E_NAV_STATE.E_NAV_RUN) :
    (navStep cfg true h s).2 =
        runSteer cfg (DirectionToBearing (navStep cfg true h s).1.bear_to_waypoint h
            (runBearingTolerance cfg (navStep cfg true h s).1.dist_to_waypoint
              s.initial_dist_to_waypoint)) ++
          (if (navStep cfg true h s).1.dist_to_waypoint ≤ cfg.SWITCH_WAYPOINT_DISTANCE then
            [Cmd.SetSpeed cfg.SPEED_STOP] else []) ∧
      (runSteer cfg (some E_DIRECTION.E_GO_LEFT) = [Cmd.SetRudder cfg.RUDDER_LEFT] ∧
        runSteer cfg (some E_DIRECTION.E_GO_RIGHT) = [Cmd.SetRudder cfg.RUDDER_RIGHT] ∧
        runSteer cfg (some E_DIRECTION.E_GO_STRAIGHT) =
          [Cmd.SetRudder cfg.RUDDER_CENTER, Cmd.SetSpeed cfg.SPEED_100_PERCENT]) ∧
      ((navStep cfg true h s).1.geNavState = E_NAV_STATE.E_NAV_SET_NEXT_WAYPOINT ↔
        (navStep cfg true h s).1.dist_to_waypoint ≤ cfg.SWITCH_WAYPOINT_DISTANCE) ∧
      ((navStep cfg true h s).1.dist_to_waypoint ≤ cfg.SWITCH_WAYPOINT_DISTANCE →
        (navStep cfg true h s).2.getLast? = some (Cmd.SetSpeed cfg.SPEED_STOP)) ∧
      (¬ (navStep cfg true h s).1.dist_to_waypoint ≤ cfg.SWITCH_WAYPOINT_DISTANCE →
        (navStep cfg true h s).1.geNavState = E_NAV_STATE.E_NAV_RUN ∧
          (navStep cfg true h s).2 =
            runSteer cfg (DirectionToBearing (navStep cfg true h s).1.bear_to_waypoint h
              (runBearingTolerance cfg (navStep cfg true h s).1.dist_to_waypoint
                s.initial_dist_to_waypoint)) ∧
          (cfg.SPEED_100_PERCENT ≠ cfg.SPEED_STOP →
            Cmd.SetSpeed cfg.SPEED_STOP ∉ (navStep cfg true h s).2)) := by
  have hsteer : ∀ dir : Option E_DIRECTION, cfg.SPEED_100_PERCENT ≠ cfg.SPEED_STOP →
      Cmd.SetSpeed cfg.SPEED_STOP ∉ runSteer cfg dir := by
    intro dir hne
    unfold runSteer
    split <;> simp [Ne.symm hne]
  cases hc : refreshDue s.update_counter
  all_goals
    refine ⟨?_, ⟨rfl, rfl, rfl⟩, ?_, fun hle => ?_, fun hle => ?_⟩
    · simp only [navStep, hs, hc]
      split_ifs <;> simp_all
    · simp only [navStep, hs, hc]
      split_ifs <;> simp_all
    · simp only [navStep, hs, hc] at hle ⊢
      split_ifs at hle ⊢ <;> simp_all
    · simp only [navStep, hs, hc] at hle ⊢
      split_ifs at hle ⊢
      all_goals first
        | exact absurd ‹_› hle
        | (refine ⟨rfl, ?_, fun hne => hsteer _ hne⟩; simp_all)
        | simp_all

theorem navStep_STOP_cmds (cfg : Config K) (b : Bool) (h : K) (s : Ctrl K)
    (hs : s.geNavState = E_NAV_STATE.E_NAV_STOP) :
    (navStep cfg b h s).2 = [Cmd.SetSpeed cfg.SPEED_STOP] := by
  cases b <;> simp [navStep, hs]

/-- C20: a tick in `E_NAV_RUN` with `locked = false`, whatever the heading, the bearing and
the distance: the next state is `E_NAV_STOP`, the target index is unchanged and no actuator
call is made; the tick that follows, executed in `E_NAV_STOP`, makes the call
`SetSpeed(SPEED_STOP)` and no other. -/
theorem run_tick_without_lock (cfg : Config K) (h : K) (s : Ctrl K)
    (hs : s.geNavState = E_NAV_STATE.E_NAV_RUN) :
    (navStep cfg false h s).1.geNavState = E_NAV_STATE.E_NAV_STOP ∧
      (navStep cfg false h s).1.gTargetWP = s.gTargetWP ∧
      (navStep cfg false h s).2 = [] ∧
      ∀ (b : Bool) (h2 : K),
        (navStep cfg b h2 (navStep cfg false h s).1).2 = [Cmd.SetSpeed cfg.SPEED_STOP] := by
  have h1 : (navStep cfg false h s).1.geNavState = E_NAV_STATE.E_NAV_STOP := by
    simp [navStep, hs]
  refine ⟨h1, ?_, by simp [navStep, hs], fun b h2 => ?_⟩
  · simp only [navStep, hs]
    split_ifs <;> simp
  · exact navStep_STOP_cmds cfg b h2 _ h1

/-! ### Further claims about runs -/

@[simp] theorem afterGps_gtGpsData {K : Type} (inp : TickInput K) (s : Ctrl K) :
    (afterGps inp s).gtGpsData = (UpdateGps inp.gps s.bLocked s.gtGpsData).2 := rfl


theorem countTicks_le_length (cfg : Config K) (p : TickInput K → Ctrl K → Bool)
    (inputs : List (TickInput K)) :
    ∀ s : Ctrl K, countTicks cfg p s inputs ≤ inputs.length := by
  induction inputs with
  | nil => intro s; simp [countTicks]
  | cons inp rest ih =>
    intro s
    have := ih (loop cfg inp s).1
    simp only [countTicks, List.length_cons]
    split <;> omega

theorem loop_gtGpsData (cfg : Config K) (inp : TickInput K) (s : Ctrl K) :
    (loop cfg inp s).1.gtGpsData = (afterGps inp s).gtGpsData := by
  unfold loop navStep
  cases hs : s.geNavState <;> simp only [afterGps_geNavState, hs] <;>
    (repeat' split) <;> simp_all

theorem loop_never_enters_wait (cfg : Config K) (inp : TickInput K) (s : Ctrl K)
    (h1 : s.geNavState ≠ E_NAV_STATE.E_NAV_INIT)
    (h2 : s.geNavState ≠ E_NAV_STATE.E_NAV_WAIT_FOR_GPS_LOCK)
    (h3 : s.geNavState ≠ E_NAV_STATE.E_NAV_WAIT_FOR_GPS_STABLIZE) :
    (loop cfg inp s).1.geNavState ≠ E_NAV_STATE.E_NAV_INIT ∧
      (loop cfg inp s).1.geNavState ≠ E_NAV_STATE.E_NAV_WAIT_FOR_GPS_LOCK ∧
      (loop cfg inp s).1.geNavState ≠ E_NAV_STATE.E_NAV_WAIT_FOR_GPS_STABLIZE := by
  unfold loop navStep
  cases hs : s.geNavState <;> simp only [afterGps_geNavState, hs] <;>
    (repeat' split) <;> simp_all

theorem loop_writesHome (cfg : Config K) (inp : TickInput K) (s : Ctrl K)
    (hw : writesHome cfg s = true) :
    s.geNavState = E_NAV_STATE.E_NAV_WAIT_FOR_GPS_STABLIZE ∧
      cfg.USE_HOME_POSITION = false ∧
      (loop cfg inp s).1.geNavState ≠ E_NAV_STATE.E_NAV_INIT ∧
      (loop cfg inp s).1.geNavState ≠ E_NAV_STATE.E_NAV_WAIT_FOR_GPS_LOCK ∧
      (loop cfg inp s).1.geNavState ≠ E_NAV_STATE.E_NAV_WAIT_FOR_GPS_STABLIZE := by
  simp only [writesHome, Bool.and_eq_true, decide_eq_true_eq, Bool.not_eq_true'] at hw
  obtain ⟨⟨hs, hd⟩, hu⟩ := hw
  refine ⟨hs, hu, ?_⟩
  have hx := loop_STABLIZE_exit cfg inp s hs hd
  rw [hx]
  cases cfg.DO_GPS_TEST <;> simp

theorem loop_gtWayPoint_of_not_writesHome (cfg : Config K) (inp : TickInput K) (s : Ctrl K)
    (hw : writesHome cfg s = false) :
    (loop cfg inp s).1.gtWayPoint = s.gtWayPoint := by
  unfold loop navStep
  cases hs : s.geNavState <;> simp only [afterGps_geNavState, hs] <;>
    (repeat' split) <;> simp_all [writesHome]

theorem loop_gtWayPoint_slot (cfg : Config K) (inp : TickInput K) (s : Ctrl K) (i : Nat)
    (hi : 1 ≤ i) :
    (loop cfg inp s).1.gtWayPoint[i]? = s.gtWayPoint[i]? ∧
      (loop cfg inp s).1.gtWayPoint.length = s.gtWayPoint.length := by
  have hi0 : 0 ≠ i := by omega
  unfold loop navStep
  cases hs : s.geNavState <;> simp only [afterGps_geNavState, hs] <;>
    (repeat' split) <;> simp_all [List.getElem?_set_ne]

theorem countTicks_writesHome_zero (cfg : Config K) (inputs : List (TickInput K)) :
    ∀ s : Ctrl K, s.geNavState ≠ E_NAV_STATE.E_NAV_INIT →
      s.geNavState ≠ E_NAV_STATE.E_NAV_WAIT_FOR_GPS_LOCK →
      s.geNavState ≠ E_NAV_STATE.E_NAV_WAIT_FOR_GPS_STABLIZE →
      countTicks cfg (fun _ s => writesHome cfg s) s inputs = 0 := by
  induction inputs with
  | nil => intro s _ _ _; rfl
  | cons inp rest ih =>
    intro s h1 h2 h3
    obtain ⟨k1, k2, k3⟩ := loop_never_enters_wait cfg inp s h1 h2 h3
    have hw : writesHome cfg s = false := by simp [writesHome, h3]
    simp [countTicks, hw, ih _ k1 k2 k3]

theorem countTicks_writesHome_le_one (cfg : Config K) (inputs : List (TickInput K)) :
    ∀ s : Ctrl K, countTicks cfg (fun _ s => writesHome cfg s) s inputs ≤ 1 := by
  induction inputs with
  | nil => intro s; simp [countTicks]
  | cons inp rest ih =>
    intro s
    simp only [countTicks]
    by_cases hw : writesHome cfg s = true
    · obtain ⟨-, -, k1, k2, k3⟩ := loop_writesHome cfg inp s hw
      have := countTicks_writesHome_zero cfg rest _ k1 k2 k3
      split <;> omega
    · have := ih (loop cfg inp s).1
      rw [if_neg hw]
      omega

theorem run_gtWayPoint_of_no_write (cfg : Config K) (inputs : List (TickInput K)) :
    ∀ s : Ctrl K, countTicks cfg (fun _ s => writesHome cfg s) s inputs = 0 →
      (run cfg s inputs).1.gtWayPoint = s.gtWayPoint := by
  induction inputs with
  | nil => intro s _; rfl
  | cons inp rest ih =>
    intro s h
    simp only [countTicks] at h
    by_cases hw : writesHome cfg s = true
    · rw [if_pos hw] at h
      omega
    · rw [if_neg hw] at h
      simp only [run]
      rw [ih _ (by omega), loop_gtWayPoint_of_not_writesHome cfg inp s (by simpa using hw)]

theorem run_gtWayPoint_slot (cfg : Config K) (inputs : List (TickInput K)) (i : Nat)
    (hi : 1 ≤ i) :
    ∀ s : Ctrl K, (run cfg s inputs).1.gtWayPoint[i]? = s.gtWayPoint[i]? ∧
      (run cfg s inputs).1.gtWayPoint.length = s.gtWayPoint.length := by
  induction inputs with
  | nil => intro s; exact ⟨rfl, rfl⟩
  | cons inp rest ih =>
    intro s
    simp only [run]
    obtain ⟨a1, a2⟩ := ih (loop cfg inp s).1
    obtain ⟨b1, b2⟩ := loop_gtWayPoint_slot cfg inp s i hi
    exact ⟨a1.trans b1, a2.trans b2⟩

/-- C12: in every run from the initial state, for every input sequence, the way point
slots of index `≥ 1` (and the table length) are those of the initial table; the
assignments to slot `0` are executed on at most one tick of the run, and on none when
`USE_HOME_POSITION` is set; if they are executed on no tick the whole table is the initial
one.  A tick that executes them is executed in `E_NAV_WAIT_FOR_GPS_STABLIZE` and leaves
that state; a tick that does not leaves the table unchanged. -/
theorem waypoint_table_writes (cfg : Config K) (inputs : List (TickInput K)) :
    (∀ i : Nat, 1 ≤ i →
        (run cfg (initCtrl cfg) inputs).1.gtWayPoint[i]? = (initialWayPoints cfg)[i]?) ∧
      (run cfg (initCtrl cfg) inputs).1.gtWayPoint.length = (initialWayPoints cfg).length ∧
      countTicks cfg (fun _ s => writesHome cfg s) (initCtrl cfg) inputs ≤ 1 ∧
      (countTicks cfg (fun _ s => writesHome cfg s) (initCtrl cfg) inputs = 0 →
        (run cfg (initCtrl cfg) inputs).1.gtWayPoint = initialWayPoints cfg) ∧
      (cfg.USE_HOME_POSITION = true →
        countTicks cfg (fun _ s => writesHome cfg s) (initCtrl cfg) inputs = 0) ∧
      (∀ (s : Ctrl K) (inp : TickInput K),
        (writesHome cfg s = true →
          s.geNavState = E_NAV_STATE.E_NAV_WAIT_FOR_GPS_STABLIZE ∧
            (loop cfg inp s).1.geNavState ≠ E_NAV_STATE.E_NAV_WAIT_FOR_GPS_STABLIZE) ∧
        (writesHome cfg s = false → (loop cfg inp s).1.gtWayPoint = s.gtWayPoint)) := by
  refine ⟨fun i hi => (run_gtWayPoint_slot cfg inputs i hi (initCtrl cfg)).1,
    (run_gtWayPoint_slot cfg inputs 1 (le_refl 1) (initCtrl cfg)).2,
    countTicks_writesHome_le_one cfg inputs (initCtrl cfg),
    fun h => run_gtWayPoint_of_no_write cfg inputs (initCtrl cfg) h, fun hu => ?_,
    fun s inp => ⟨fun hw => ?_, fun hw => loop_gtWayPoint_of_not_writesHome cfg inp s hw⟩⟩
  · have hall : ∀ (l : List (TickInput K)) (s : Ctrl K),
        countTicks cfg (fun _ s => writesHome cfg s) s l = 0 := by
      intro l
      induction l with
      | nil => intro s; rfl
      | cons inp rest ih =>
        intro s
        have hw : writesHome cfg s = false := by simp [writesHome, hu]
        simp only [countTicks]
        rw [if_neg (by simp [hw]), ih]
    exact hall inputs _
  · obtain ⟨h1, -, -, -, h5⟩ := loop_writesHome cfg inp s hw
    exact ⟨h1, h5⟩

theorem countTicks_append (cfg : Config K) (p : TickInput K → Ctrl K → Bool)
    (a b : List (TickInput K)) :
    ∀ s : Ctrl K, countTicks cfg p s (a ++ b) =
      countTicks cfg p s a + countTicks cfg p (run cfg s a).1 b := by
  induction a with
  | nil => intro s; simp [run, countTicks]
  | cons inp rest ih => intro s; simp [run, countTicks, ih, Nat.add_assoc]

/-! ### Home -/

theorem wayPointAt_set_zero (tbl : List (tWAY_POINT K)) (w : tWAY_POINT K) (h : tbl ≠ []) :
    wayPointAt (tbl.set 0 w) 0 = w := by
  cases tbl with
  | nil => exact absurd rfl h
  | cons x xs => simp [wayPointAt]

theorem loop_STABLIZE_exit_home (cfg : Config K) (inp : TickInput K) (s : Ctrl K)
    (hs : s.geNavState = E_NAV_STATE.E_NAV_WAIT_FOR_GPS_STABLIZE) (hd : s.gps_delay = 0)
    (hu : cfg.USE_HOME_POSITION = false) :
    (loop cfg inp s).1.gtWayPoint =
      s.gtWayPoint.set 0
        { flat := (afterGps inp s).gtGpsData.flat, flon := (afterGps inp s).gtGpsData.flon } := by
  simp [loop, navStep, hs, hd, hu]

theorem run_gtGpsData_quiet (cfg : Config K) (inputs : List (TickInput K)) :
    ∀ s : Ctrl K, (∀ inp ∈ inputs, inp.gps = none) →
      (run cfg s inputs).1.gtGpsData = s.gtGpsData := by
  induction inputs with
  | nil => intro s _; rfl
  | cons inp rest ih =>
    intro s h
    simp only [run]
    rw [ih _ (fun i hi => h i (List.mem_cons_of_mem _ hi)), loop_gtGpsData]
    have := h inp (List.mem_cons_self _ _)
    simp [afterGps, UpdateGps, this]

theorem run_gtGpsData_last (cfg : Config K) (inputs : List (TickInput K)) :
    ∀ (s : Ctrl K) (inp : TickInput K) (g : GpsSample K),
      inputs.getLast? = some inp → inp.gps = some g →
      (run cfg s inputs).1.gtGpsData.flat = g.flat ∧
        (run cfg s inputs).1.gtGpsData.flon = g.flon := by
  induction inputs with
  | nil => intro s inp g h; simp at h
  | cons x rest ih =>
    intro s inp g h hg
    cases rest with
    | nil =>
      simp only [List.getLast?_singleton, Option.some.injEq] at h
      subst h
      simp only [run]
      rw [loop_gtGpsData]
      simp [afterGps, UpdateGps, hg]
    | cons y r =>
      rw [List.getLast?_cons_cons] at h
      simp only [run] at ih ⊢
      exact ih _ inp g h hg

theorem run_STABLIZE_home (cfg : Config K) (hu : cfg.USE_HOME_POSITION = false)
    (inputs : List (TickInput K)) :
    ∀ s : Ctrl K, s.geNavState = E_NAV_STATE.E_NAV_WAIT_FOR_GPS_STABLIZE →
      0 ≤ s.gps_delay → s.gps_delay ≤ 32767 → s.gtWayPoint ≠ [] →
      inputs.length = s.gps_delay.toNat + 1 →
      (wayPointAt (run cfg s inputs).1.gtWayPoint 0).flat
          = (run cfg s inputs).1.gtGpsData.flat ∧
        (wayPointAt (run cfg s inputs).1.gtWayPoint 0).flon
          = (run cfg s inputs).1.gtGpsData.flon := by
  induction inputs with
  | nil => intro s _ _ _ _ h; simp at h
  | cons inp rest ih =>
    intro s hs h0 h1 ht hlen
    by_cases hd : s.gps_delay = 0
    · have hr : rest = [] := by
        simp [hd] at hlen
        exact hlen
      subst hr
      simp only [run]
      rw [loop_STABLIZE_exit_home cfg inp s hs hd hu, wayPointAt_set_zero _ _ ht,
        loop_gtGpsData]
      exact ⟨rfl, rfl⟩
    · obtain ⟨hst, hdl⟩ := loop_STABLIZE_wait cfg inp s hs hd
      rw [wrapS16_of_range _ (by omega) (by omega)] at hdl
      have hw : writesHome cfg s = false := by simp [writesHome, hd]
      have htbl := loop_gtWayPoint_of_not_writesHome cfg inp s hw
      simp only [run]
      apply ih (loop cfg inp s).1 hst (by omega) (by omega) (by rw [htbl]; exact ht)
      simp only [List.length_cons] at hlen
      rw [hdl]
      omega

/-- C13 (amended): when no fixed home is configured, for a countdown `0 ≤ K ≤ 32767`, after
the tick of `E_NAV_WAIT_FOR_GPS_LOCK` that observes the lock and the `K + 1` ticks of the
stabilization wait, way point slot `0` holds the latitude and longitude latched in
`gtGpsData` on the last of these ticks, the one that leaves the wait: the coordinates of
the sample delivered on that tick if there is one, and the coordinates of the first locked
fix if no sample is delivered during the wait. -/
theorem home_is_fix_at_end_of_wait (cfg : Config K) (inp0 : TickInput K) (s0 : Ctrl K)
    (inputs : List (TickInput K))
    (hK : 0 ≤ cfg.GPS_STABALIZE_LOCK_TIME ∧ cfg.GPS_STABALIZE_LOCK_TIME ≤ 32767)
    (hu : cfg.USE_HOME_POSITION = false)
    (hs : s0.geNavState = E_NAV_STATE.E_NAV_WAIT_FOR_GPS_LOCK)
    (hl : lockedAt inp0 s0 = true) (ht : s0.gtWayPoint ≠ [])
    (hlen : inputs.length = cfg.GPS_STABALIZE_LOCK_TIME.toNat + 1) :
    ((wayPointAt (run cfg (loop cfg inp0 s0).1 inputs).1.gtWayPoint 0).flat
          = (run cfg (loop cfg inp0 s0).1 inputs).1.gtGpsData.flat ∧
        (wayPointAt (run cfg (loop cfg inp0 s0).1 inputs).1.gtWayPoint 0).flon
          = (run cfg (loop cfg inp0 s0).1 inputs).1.gtGpsData.flon) ∧
      (∀ (inp : TickInput K) (g : GpsSample K), inputs.getLast? = some inp →
        inp.gps = some g →
        (wayPointAt (run cfg (loop cfg inp0 s0).1 inputs).1.gtWayPoint 0).flat = g.flat ∧
          (wayPointAt (run cfg (loop cfg inp0 s0).1 inputs).1.gtWayPoint 0).flon = g.flon) ∧
      ((∀ inp ∈ inputs, inp.gps = none) →
        (wayPointAt (run cfg (loop cfg inp0 s0).1 inputs).1.gtWayPoint 0).flat
            = (afterGps inp0 s0).gtGpsData.flat ∧
          (wayPointAt (run cfg (loop cfg inp0 s0).1 inputs).1.gtWayPoint 0).flon
            = (afterGps inp0 s0).gtGpsData.flon) := by
  obtain ⟨hst, hdl⟩ := loop_LOCK_locked cfg inp0 s0 hs hl
  rw [wrapS16_of_range _ (by omega) (by omega)] at hdl
  have htbl : (loop cfg inp0 s0).1.gtWayPoint = s0.gtWayPoint :=
    loop_gtWayPoint_of_not_writesHome cfg inp0 s0 (by simp [writesHome, hs])
  have hmain := run_STABLIZE_home cfg hu inputs (loop cfg inp0 s0).1 hst (by omega) (by omega)
    (by rw [htbl]; exact ht) (by rw [hdl]; exact hlen)
  refine ⟨hmain, fun inp g hlast hg => ?_, fun hq => ?_⟩
  · have := run_gtGpsData_last cfg inputs (loop cfg inp0 s0).1 inp g hlast hg
    exact ⟨hmain.1.trans this.1, hmain.2.trans this.2⟩
  · have := run_gtGpsData_quiet cfg inputs (loop cfg inp0 s0).1 hq
    rw [loop_gtGpsData] at this
    rw [hmain.1, hmain.2, this]
    exact ⟨rfl, rfl⟩

/-! ### Legs -/

theorem loop_leg_step (cfg : Config K) (inp : TickInput K) (s : Ctrl K)
    (hns : s.geNavState ≠ E_NAV_STATE.E_NAV_SET_NEXT_WAYPOINT) :
    (assignsInitialDist cfg inp s = true →
        s.geNavState = E_NAV_STATE.E_NAV_START ∧
          (loop cfg inp s).1.geNavState = E_NAV_STATE.E_NAV_RUN) ∧
      (losesLockInRun inp s = true → s.geNavState = E_NAV_STATE.E_NAV_RUN) ∧
      (s.geNavState ≠ E_NAV_STATE.E_NAV_START → s.geNavState ≠ E_NAV_STATE.E_NAV_STOP →
        s.geNavState ≠ E_NAV_STATE.E_NAV_WAIT_FOR_GPS_RELOCK →
        losesLockInRun inp s = false →
        (loop cfg inp s).1.geNavState ≠ E_NAV_STATE.E_NAV_START ∧
          (loop cfg inp s).1.geNavState ≠ E_NAV_STATE.E_NAV_STOP ∧
          (loop cfg inp s).1.geNavState ≠ E_NAV_STATE.E_NAV_WAIT_FOR_GPS_RELOCK) := by
  refine ⟨fun ha => ?_, fun hl => ?_, fun h1 h2 h3 hl => ?_⟩
  · simp only [assignsInitialDist, Bool.and_eq_true, decide_eq_true_eq] at ha
    refine ⟨ha.1, ?_⟩
    have hd := ha.2
    simp only [loop, headingAt] at hd ⊢
    simp [navStep, ha.1, hd, headingAt]
  · simp only [losesLockInRun, Bool.and_eq_true, decide_eq_true_eq] at hl
    exact hl.1
  · simp only [losesLockInRun, Bool.and_eq_false_iff, decide_eq_false_iff_not,
      Bool.not_eq_false'] at hl
    unfold loop navStep
    cases hs : s.geNavState <;> simp only [afterGps_geNavState, hs] <;>
      (repeat' split) <;> simp_all

theorem countTicks_assigns_bound (cfg : Config K) (inputs : List (TickInput K)) :
    ∀ s : Ctrl K, ticksInState cfg E_NAV_STATE.E_NAV_SET_NEXT_WAYPOINT s inputs = 0 →
      countTicks cfg (assignsInitialDist cfg) s inputs
          ≤ 1 + countTicks cfg losesLockInRun s inputs ∧
        (s.geNavState ≠ E_NAV_STATE.E_NAV_START → s.geNavState ≠ E_NAV_STATE.E_NAV_STOP →
          s.geNavState ≠ E_NAV_STATE.E_NAV_WAIT_FOR_GPS_RELOCK →
          countTicks cfg (assignsInitialDist cfg) s inputs
            ≤ countTicks cfg losesLockInRun s inputs) := by
  induction inputs with
  | nil => intro s _; simp [countTicks]
  | cons inp rest ih =>
    intro s hleg
    simp only [ticksInState] at hleg
    have hns : s.geNavState ≠ E_NAV_STATE.E_NAV_SET_NEXT_WAYPOINT := by
      intro h
      rw [if_pos h] at hleg
      omega
    rw [if_neg hns] at hleg
    obtain ⟨ih1, ih2⟩ := ih (loop cfg inp s).1 (by omega)
    obtain ⟨st1, st2, st3⟩ := loop_leg_step cfg inp s hns
    simp only [countTicks]
    by_cases ha : assignsInitialDist cfg inp s = true <;>
      by_cases hl : losesLockInRun inp s = true
    · have h1 := (st1 ha).1
      have h2 := st2 hl
      rw [h1] at h2
      exact absurd h2 (by decide)
    · obtain ⟨h1, h2⟩ := st1 ha
      have := ih2 (by rw [h2]; decide) (by rw [h2]; decide) (by rw [h2]; decide)
      rw [if_pos ha, if_neg hl]
      exact ⟨by omega, fun hne => absurd h1 hne⟩
    · rw [if_neg ha, if_pos hl]
      exact ⟨by omega, fun _ _ _ => by omega⟩
    · rw [if_neg ha, if_neg hl]
      refine ⟨by omega, fun k1 k2 k3 => ?_⟩
      obtain ⟨m1, m2, m3⟩ := st3 k1 k2 k3 (by simpa using hl)
      have := ih2 m1 m2 m3
      omega

theorem loop_initial_dist (cfg : Config K) (inp : TickInput K) (s : Ctrl K) :
    (loop cfg inp s).1.initial_dist_to_waypoint =
      if assignsInitialDist cfg inp s = true then
        cfg.distance_between (afterGps inp s).gtGpsData.flat (afterGps inp s).gtGpsData.flon
          (wayPointAt s.gtWayPoint s.gTargetWP).flat (wayPointAt s.gtWayPoint s.gTargetWP).flon
      else s.initial_dist_to_waypoint := by
  unfold loop navStep assignsInitialDist
  cases hs : s.geNavState <;>
    simp only [afterGps_geNavState, afterGps_bear_to_waypoint, hs] <;>
    (repeat' split) <;> simp_all

/-- C14 (amended): over a stretch of ticks none of which is executed in
`E_NAV_SET_NEXT_WAYPOINT` (one leg), the number of ticks that assign the initial distance
is at most one plus the number of ticks of `E_NAV_RUN` on which `UpdateGps` returns
`false`; in a leg without such a loss of lock the initial distance is assigned at most
once.  A tick assigns it exactly when it is executed in `E_NAV_START` with the turn
decision `E_GO_STRAIGHT`, to the distance from the latched fix to the target way point;
every other tick leaves it unchanged. -/
theorem initial_distance_assignments (cfg : Config K) (s : Ctrl K)
    (inputs : List (TickInput K))
    (hleg : ticksInState cfg E_NAV_STATE.E_NAV_SET_NEXT_WAYPOINT s inputs = 0) :
    countTicks cfg (assignsInitialDist cfg) s inputs
        ≤ 1 + countTicks cfg losesLockInRun s inputs ∧
      (countTicks cfg losesLockInRun s inputs = 0 →
        countTicks cfg (assignsInitialDist cfg) s inputs ≤ 1) ∧
      (∀ (s1 : Ctrl K) (inp : TickInput K),
        (loop cfg inp s1).1.initial_dist_to_waypoint =
          if assignsInitialDist cfg inp s1 = true then
            cfg.distance_between (afterGps inp s1).gtGpsData.flat
              (afterGps inp s1).gtGpsData.flon
              (wayPointAt s1.gtWayPoint s1.gTargetWP).flat
              (wayPointAt s1.gtWayPoint s1.gTargetWP).flon
          else s1.initial_dist_to_waypoint) := by
  have h := (countTicks_assigns_bound cfg inputs s hleg).1
  exact ⟨h, fun h0 => by omega, fun s1 inp => loop_initial_dist cfg inp s1⟩

theorem loop_STOP_RELOCK_frame (cfg : Config K) (inp : TickInput K) (s : Ctrl K)
    (hs : s.geNavState = E_NAV_STATE.E_NAV_STOP ∨
      s.geNavState = E_NAV_STATE.E_NAV_WAIT_FOR_GPS_RELOCK) :
    (loop cfg inp s).1.gTargetWP = s.gTargetWP ∧
      (loop cfg inp s).1.gtWayPoint = s.gtWayPoint ∧
      (loop cfg inp s).1.bear_to_waypoint = s.bear_to_waypoint ∧
      (loop cfg inp s).1.dist_to_waypoint = s.dist_to_waypoint ∧
      (loop cfg inp s).1.initial_dist_to_waypoint = s.initial_dist_to_waypoint := by
  rcases hs with hs | hs <;> cases hl : lockedAt inp s <;> simp [loop, navStep, hs, hl]

theorem run_STOP_RELOCK_frame (cfg : Config K) (inputs : List (TickInput K)) :
    ∀ s : Ctrl K, countTicks cfg inStopOrRelock s inputs = inputs.length →
      (run cfg s inputs).1.gTargetWP = s.gTargetWP ∧
        (run cfg s inputs).1.gtWayPoint = s.gtWayPoint ∧
        (run cfg s inputs).1.bear_to_waypoint = s.bear_to_waypoint ∧
        (run cfg s inputs).1.dist_to_waypoint = s.dist_to_waypoint ∧
        (run cfg s inputs).1.initial_dist_to_waypoint = s.initial_dist_to_waypoint := by
  induction inputs with
  | nil => intro s _; exact ⟨rfl, rfl, rfl, rfl, rfl⟩
  | cons inp rest ih =>
    intro s h
    simp only [countTicks, List.length_cons] at h
    have hle := countTicks_le_length cfg inStopOrRelock rest (loop cfg inp s).1
    by_cases hp : inStopOrRelock inp s = true
    · rw [if_pos hp] at h
      have hs : s.geNavState = E_NAV_STATE.E_NAV_STOP ∨
          s.geNavState = E_NAV_STATE.E_NAV_WAIT_FOR_GPS_RELOCK := by
        simpa [inStopOrRelock] using hp
      obtain ⟨a1, a2, a3, a4, a5⟩ := ih (loop cfg inp s).1 (by omega)
      obtain ⟨b1, b2, b3, b4, b5⟩ := loop_STOP_RELOCK_frame cfg inp s hs
      simp only [run]
      exact ⟨a1.trans b1, a2.trans b2, a3.trans b3, a4.trans b4, a5.trans b5⟩
    · rw [if_neg hp] at h
      omega

/-- C15: a tick in `E_NAV_STOP` makes the call `SetSpeed(SPEED_STOP)` and moves to
`E_NAV_WAIT_FOR_GPS_RELOCK` when `locked = false`, to `E_NAV_IDLE` when `locked = true`; a
tick in `E_NAV_WAIT_FOR_GPS_RELOCK` makes no call, stays when `locked = false` and moves to
`E_NAV_START` when `locked = true`; nothing but `geNavState` changes.  In particular the
target index, the way point table, the target bearing and both distances are unchanged by
such a tick, and by any run of ticks all executed in one of these two states. -/
theorem stop_and_relock_ticks (cfg : Config K) (b : Bool) (h : K) (s : Ctrl K) :
    (s.geNavState = E_NAV_STATE.E_NAV_STOP →
        navStep cfg b h s =
          ({ s with geNavState :=
              if b then E_NAV_STATE.E_NAV_IDLE else E_NAV_STATE.E_NAV_WAIT_FOR_GPS_RELOCK },
            [Cmd.SetSpeed cfg.SPEED_STOP])) ∧
      (s.geNavState = E_NAV_STATE.E_NAV_WAIT_FOR_GPS_RELOCK →
        navStep cfg b h s =
          ({ s with geNavState :=
              if b then E_NAV_STATE.E_NAV_START else E_NAV_STATE.E_NAV_WAIT_FOR_GPS_RELOCK },
            [])) ∧
      ((s.geNavState = E_NAV_STATE.E_NAV_STOP ∨
          s.geNavState = E_NAV_STATE.E_NAV_WAIT_FOR_GPS_RELOCK) →
        (navStep cfg b h s).1.gTargetWP = s.gTargetWP ∧
          (navStep cfg b h s).1.gtWayPoint = s.gtWayPoint ∧
          (navStep cfg b h s).1.bear_to_waypoint = s.bear_to_waypoint ∧
          (navStep cfg b h s).1.dist_to_waypoint = s.dist_to_waypoint ∧
          (navStep cfg b h s).1.initial_dist_to_waypoint = s.initial_dist_to_waypoint) ∧
      (∀ inputs : List (TickInput K),
        countTicks cfg inStopOrRelock s inputs = inputs.length →
        (run cfg s inputs).1.gTargetWP = s.gTargetWP ∧
          (run cfg s inputs).1.gtWayPoint = s.gtWayPoint ∧
          (run cfg s inputs).1.bear_to_waypoint = s.bear_to_waypoint ∧
          (run cfg s inputs).1.dist_to_waypoint = s.dist_to_waypoint ∧
          (run cfg s inputs).1.initial_dist_to_waypoint = s.initial_dist_to_waypoint) := by
  refine ⟨fun hs => ?_, fun hs => ?_, fun hs => ?_,
    fun inputs hc => run_STOP_RELOCK_frame cfg inputs s hc⟩
  · cases b <;> simp [navStep, hs]
  · cases b
    · cases s
      simp_all [navStep]
    · simp [navStep, hs]
  · rcases hs with hs | hs <;> cases b <;> simp [navStep, hs]

theorem loop_IDLE (cfg : Config K) (inp : TickInput K) (s : Ctrl K)
    (hs : s.geNavState = E_NAV_STATE.E_NAV_IDLE) :
    loop cfg inp s = (afterGps inp s, []) := by
  simp [loop, navStep, hs]

theorem run_IDLE (cfg : Config K) (inputs : List (TickInput K)) :
    ∀ s : Ctrl K, s.geNavState = E_NAV_STATE.E_NAV_IDLE →
      (run cfg s inputs).1.geNavState = E_NAV_STATE.E_NAV_IDLE ∧
        (run cfg s inputs).2 = [] ∧
        (run cfg s inputs).1.gTargetWP = s.gTargetWP ∧
        (run cfg s inputs).1.gtWayPoint = s.gtWayPoint ∧
        (run cfg s inputs).1.bear_to_waypoint = s.bear_to_waypoint ∧
        (run cfg s inputs).1.dist_to_waypoint = s.dist_to_waypoint ∧
        (run cfg s inputs).1.initial_dist_to_waypoint = s.initial_dist_to_waypoint ∧
        (run cfg s inputs).1.update_counter = s.update_counter ∧
        (run cfg s inputs).1.gps_delay = s.gps_delay := by
  induction inputs with
  | nil => intro s hs; exact ⟨hs, rfl, rfl, rfl, rfl, rfl, rfl, rfl, rfl⟩
  | cons inp rest ih =>
    intro s hs
    have hstep := loop_IDLE cfg inp s hs
    obtain ⟨a0, a1, a2, a3, a4, a5, a6, a7, a8⟩ :=
      ih (loop cfg inp s).1 (by rw [hstep]; exact hs)
    have f : (loop cfg inp s).1 = afterGps inp s := by rw [hstep]
    simp only [run]
    refine ⟨a0, ?_, a2.trans ?_, a3.trans ?_, a4.trans ?_, a5.trans ?_, a6.trans ?_,
      a7.trans ?_, a8.trans ?_⟩
    · rw [a1, hstep]
      rfl
    all_goals rw [f]; rfl

/-- C18: in `E_NAV_IDLE` a tick changes nothing and makes no actuator call, so every run
from `E_NAV_IDLE` stays in `E_NAV_IDLE`, makes no call and keeps all session variables.  In
`E_NAV_RUN`, a tick on which `UpdateGps` returns `false` followed by a tick on which it
returns `true` puts the machine in `E_NAV_IDLE`, where it is after any further ticks. -/
theorem idle_absorbing (cfg : Config K) (s : Ctrl K) :
    (s.geNavState = E_NAV_STATE.E_NAV_IDLE →
        (∀ (b : Bool) (h : K), navStep cfg b h s = (s, [])) ∧
          ∀ inputs : List (TickInput K),
            (run cfg s inputs).1.geNavState = E_NAV_STATE.E_NAV_IDLE ∧
              (run cfg s inputs).2 = [] ∧
              (run cfg s inputs).1.gTargetWP = s.gTargetWP ∧
              (run cfg s inputs).1.gtWayPoint = s.gtWayPoint ∧
              (run cfg s inputs).1.bear_to_waypoint = s.bear_to_waypoint ∧
              (run cfg s inputs).1.dist_to_waypoint = s.dist_to_waypoint ∧
              (run cfg s inputs).1.initial_dist_to_waypoint = s.initial_dist_to_waypoint ∧
              (run cfg s inputs).1.update_counter = s.update_counter ∧
              (run cfg s inputs).1.gps_delay = s.gps_delay) ∧
      (s.geNavState = E_NAV_STATE.E_NAV_RUN →
        ∀ (inp1 inp2 : TickInput K) (rest : List (TickInput K)),
          lockedAt inp1 s = false → lockedAt inp2 (loop cfg inp1 s).1 = true →
          (run cfg s [inp1, inp2]).1.geNavState = E_NAV_STATE.E_NAV_IDLE ∧
            (run cfg s (inp1 :: inp2 :: rest)).1.geNavState = E_NAV_STATE.E_NAV_IDLE) := by
  refine ⟨fun hs => ⟨fun b h => by simp [navStep, hs], fun inputs => run_IDLE cfg inputs s hs⟩,
    fun hs inp1 inp2 rest h1 h2 => ?_⟩
  have e1 : (loop cfg inp1 s).1.geNavState = E_NAV_STATE.E_NAV_STOP := by
    simp [loop, navStep, hs, h1]
  have e2 : (loop cfg inp2 (loop cfg inp1 s).1).1.geNavState = E_NAV_STATE.E_NAV_IDLE := by
    have : (loop cfg inp2 (loop cfg inp1 s).1).1.geNavState =
        (navStep cfg (lockedAt inp2 (loop cfg inp1 s).1) (headingAt cfg inp2)
          (afterGps inp2 (loop cfg inp1 s).1)).1.geNavState := rfl
    rw [this, h2]
    simp [navStep, e1]
  exact ⟨by simp only [run]; exact e2, by simp only [run]; exact (run_IDLE cfg rest _ e2).1⟩

/-! ### Heading normalisation with a margin -/

theorem degrees_lt_iff (pi u v : K) (hpi : 0 < pi) :
    degrees pi u < degrees pi v ↔ u < v := by
  unfold degrees
  exact mul_lt_mul_right (div_pos (by norm_num) hpi)

theorem degrees_neg_TWO_PI (pi : K) (hpi : 0 < pi) : degrees pi (-(TWO_PI pi)) = -360 := by
  unfold degrees TWO_PI
  have : pi ≠ 0 := ne_of_gt hpi
  field_simp
  ring

theorem degrees_two_TWO_PI (pi : K) (hpi : 0 < pi) : degrees pi (2 * TWO_PI pi) = 720 := by
  unfold degrees TWO_PI
  have : pi ≠ 0 := ne_of_gt hpi
  field_simp
  ring

theorem GetCompassHeading_in_range_of_angle (pi a decl : K) (hpi : 0 < pi)
    (hlo : -(TWO_PI pi) ≤ a - radians pi decl) (hhi : a - radians pi decl < 2 * TWO_PI pi)
    (hne : a - radians pi decl ≠ TWO_PI pi) :
    0 ≤ GetCompassHeading pi a decl ∧ GetCompassHeading pi a decl < 360 := by
  have h2 : 0 < TWO_PI pi := by unfold TWO_PI; linarith
  unfold GetCompassHeading
  by_cases h0 : a - radians pi decl < 0
  · have hlt : ¬ (a - radians pi decl + TWO_PI pi > TWO_PI pi) := by
      simp only [gt_iff_lt, not_lt]; linarith
    simp only [h0, if_true, hlt, if_false]
    exact ⟨degrees_nonneg pi _ hpi (by linarith), degrees_lt_360 pi _ hpi (by linarith)⟩
  · simp only [h0, if_false]
    by_cases h1 : a - radians pi decl > TWO_PI pi
    · simp only [h1, if_true]
      exact ⟨degrees_nonneg pi _ hpi (by linarith [h1.le]),
        degrees_lt_360 pi _ hpi (by linarith)⟩
    · simp only [h1, if_false]
      have hle : a - radians pi decl ≤ TWO_PI pi := not_lt.mp h1
      exact ⟨degrees_nonneg pi _ hpi (not_lt.mp h0),
        degrees_lt_360 pi _ hpi (lt_of_le_of_ne hle hne)⟩

/-- C3 (amended): for a raw angle `a` in `(-π, π]` and a declination strictly between
`-360` and `360` degrees such that `a` in degrees minus the declination is at least
`-360 + 0.001` and is at least `0.001` away from `360`, `GetCompassHeading` returns a
value in `[0, 360)`; and it still does when the heading it works on is off by an error
`e` of at most `0.0005` degree, as the rounding of `float heading` in the subtraction of
the declination can make it (`e = 0` is the function on `a` itself). -/
theorem GetCompassHeading_in_range_with_margin (pi a decl e : K) (hpi : 0 < pi)
    (ha : -pi < a ∧ a ≤ pi) (hd : -360 < decl ∧ decl < 360)
    (hlo : -360 + 1 / 1000 ≤ degrees pi a - decl)
    (hne : 1 / 1000 ≤ |degrees pi a - decl - 360|)
    (he : |degrees pi e| ≤ 1 / 2000) :
    0 ≤ GetCompassHeading pi (a + e) decl ∧ GetCompassHeading pi (a + e) decl < 360 := by
  obtain ⟨e1, e2⟩ := abs_le.mp he
  have hdeg : degrees pi (a + e - radians pi decl) = degrees pi a - decl + degrees pi e := by
    rw [degrees_sub_radians pi (a + e) decl hpi, degrees_add]
    ring
  have ha180 : degrees pi a ≤ 180 := by
    have h : a * (180 / pi) ≤ pi * (180 / pi) :=
      mul_le_mul_of_nonneg_right ha.2 (div_pos (by norm_num) hpi).le
    have e : pi * (180 / pi) = 180 := by
      have : pi ≠ 0 := ne_of_gt hpi
      field_simp
    unfold degrees
    linarith
  apply GetCompassHeading_in_range_of_angle pi (a + e) decl hpi
  · by_contra hcon
    have h := (degrees_lt_iff pi _ _ hpi).mpr (not_le.mp hcon)
    rw [hdeg, degrees_neg_TWO_PI pi hpi] at h
    linarith
  · by_contra hcon
    have h : ¬ degrees pi (a + e - radians pi decl) < degrees pi (2 * TWO_PI pi) := by
      rw [degrees_lt_iff pi _ _ hpi]
      exact hcon
    rw [hdeg, degrees_two_TWO_PI pi hpi] at h
    exact h (by linarith [hd.1])
  · intro hcon
    have h : degrees pi (a + e - radians pi decl) = 360 := by
      rw [hcon, degrees_TWO_PI pi hpi]
    rw [hdeg] at h
    have h2 : degrees pi a - decl - 360 = -degrees pi e := by linarith
    rw [h2, abs_neg] at hne
    linarith

end Theorems

/-! ## Evaluations on the concrete configuration -/

/-- C4, at `N = 3` and index `1`: the tick in `E_NAV_SET_NEXT_WAYPOINT` sets the index to
`2`, and five successive updates from `1` give `(1 + 5) mod 3`. -/
theorem setNextWaypoint_index_cycle_witness :
    (loop (exampleConfig 0) quietTick setNextState).1.gTargetWP = (1 + 1) % 3 ∧
      (nextTargetWP 3)^[5] 1 = (1 + (5 : Nat)) % 3 :=
  ⟨(setNextWaypoint_index_cycle (exampleConfig 0) quietTick setNextState
      (by decide) rfl (by decide)).1,
    (setNextWaypoint_index_cycle (exampleConfig 0) quietTick setNextState
      (by decide) rfl (by decide)).2.2.2.1 5⟩

/-- C5 (counterexample): with a countdown of `K = 2`, the lock is observed on the second
tick; after `K = 2` further ticks the machine is still in `E_NAV_WAIT_FOR_GPS_STABLIZE`, and
it reaches `E_NAV_SET_NEXT_WAYPOINT` only after a third: three ticks, not two, are executed
in `E_NAV_WAIT_FOR_GPS_STABLIZE`. -/
theorem stabilize_wait_takes_three_ticks :
    (exampleConfig 2).GPS_STABALIZE_LOCK_TIME = 2 ∧
      lockedTrace (exampleConfig 2) (initCtrl (exampleConfig 2)) [fixTick 0 0, fixTick 0 0]
        = [true, true] ∧
      (run (exampleConfig 2) (initCtrl (exampleConfig 2)) [fixTick 0 0]).1.geNavState
        = E_NAV_STATE.E_NAV_WAIT_FOR_GPS_LOCK ∧
      (run (exampleConfig 2) (initCtrl (exampleConfig 2))
          [fixTick 0 0, fixTick 0 0]).1.geNavState
        = E_NAV_STATE.E_NAV_WAIT_FOR_GPS_STABLIZE ∧
      (run (exampleConfig 2) (initCtrl (exampleConfig 2))
          [fixTick 0 0, fixTick 0 0, quietTick, quietTick]).1.geNavState
        = E_NAV_STATE.E_NAV_WAIT_FOR_GPS_STABLIZE ∧
      (run (exampleConfig 2) (initCtrl (exampleConfig 2))
          [fixTick 0 0, fixTick 0 0, quietTick, quietTick, quietTick]).1.geNavState
        = E_NAV_STATE.E_NAV_SET_NEXT_WAYPOINT ∧
      ticksInState (exampleConfig 2) E_NAV_STATE.E_NAV_WAIT_FOR_GPS_STABLIZE
          (initCtrl (exampleConfig 2))
          [fixTick 0 0, fixTick 0 0, quietTick, quietTick, quietTick] = 3 := by
  refine ⟨rfl, ?_, ?_, ?_, ?_, ?_, ?_⟩ <;> decide

/-- C5 (amended), with a countdown of `2`: after the tick that observes the lock, three
further ticks, all executed in `E_NAV_WAIT_FOR_GPS_STABLIZE`, bring the machine to
`E_NAV_SET_NEXT_WAYPOINT`. -/
theorem stabilize_wait_ticks_witness :
    (run (exampleConfig 2)
        (loop (exampleConfig 2) (fixTick 0 0)
          (loop (exampleConfig 2) quietTick (initCtrl (exampleConfig 2))).1).1
        [quietTick, noFixTick, quietTick]).1.geNavState
      = E_NAV_STATE.E_NAV_SET_NEXT_WAYPOINT ∧
    ticksInState (exampleConfig 2) E_NAV_STATE.E_NAV_WAIT_FOR_GPS_STABLIZE
        (loop (exampleConfig 2) (fixTick 0 0)
          (loop (exampleConfig 2) quietTick (initCtrl (exampleConfig 2))).1).1
        [quietTick, noFixTick, quietTick] = 2 + 1 :=
  (stabilize_wait_ticks (exampleConfig 2) (fixTick 0 0)
    (loop (exampleConfig 2) quietTick (initCtrl (exampleConfig 2))).1
    ⟨by decide, by decide⟩ (by decide) (by decide) [quietTick, noFixTick, quietTick]).2.2
    (by decide)

/-- C6 (counterexample): four ticks bring the machine to `E_NAV_START`; on the fifth the
decoder reports an invalid fix age, so `UpdateGps` returns `false`; the heading is on the
bearing, and the tick moves the machine to `E_NAV_RUN` at half speed, not to `E_NAV_STOP`
or `E_NAV_WAIT_FOR_GPS_RELOCK`. -/
theorem lock_loss_in_START_enters_RUN :
    (run (exampleConfig 0) (initCtrl (exampleConfig 0))
        [fixTick 0 0, fixTick 0 0, quietTick, quietTick]).1.geNavState
      = E_NAV_STATE.E_NAV_START ∧
    lockedTrace (exampleConfig 0) (initCtrl (exampleConfig 0))
        [fixTick 0 0, fixTick 0 0, quietTick, quietTick, noFixTick]
      = [true, true, true, true, false] ∧
    (run (exampleConfig 0) (initCtrl (exampleConfig 0))
        [fixTick 0 0, fixTick 0 0, quietTick, quietTick, noFixTick]).1.geNavState
      = E_NAV_STATE.E_NAV_RUN ∧
    (run (exampleConfig 0) (initCtrl (exampleConfig 0))
        [fixTick 0 0, fixTick 0 0, quietTick, quietTick, noFixTick]).2
      = [Cmd.SetRudder 90, Cmd.SetSpeed 70] := by
  refine ⟨by decide, by decide, ?_, ?_⟩ <;>
  norm_num [run, loop, navStep, exampleConfig, quietTick, fixTick, noFixTick, afterGps,
    lockedAt, UpdateGps, headingAt, GetCompassHeading, DirectionToBearing, radians, degrees,
    TWO_PI, wrapS16, wayPointAt, initCtrl, initialWayPoints, nextTargetWP, Int.tmod]

/-- C6 (amended), on the cruising state: without lock the tick in `E_NAV_RUN` goes to
`E_NAV_STOP`, and the tick in `E_NAV_START` does what it does with lock. -/
theorem lock_loss_in_RUN_and_START_witness :
    (navStep (exampleConfig 0) false 0 (cruiseState 0)).1.geNavState
        = E_NAV_STATE.E_NAV_STOP ∧
      navStep (exampleConfig 0) false 0 startState
        = navStep (exampleConfig 0) true 0 startState :=
  ⟨((lock_loss_in_RUN_and_START (exampleConfig 0) 0 (cruiseState 0)).1 rfl).1,
    ((lock_loss_in_RUN_and_START (exampleConfig 0) 0 startState).2 rfl).1⟩

theorem loop_cruiseState (c : Nat) :
    loop (exampleConfig 0) quietTick (cruiseState c) =
      (cruiseState ((c + 1) % 256), [Cmd.SetRudder 90, Cmd.SetSpeed 50]) := by
  by_cases h : refreshDue c = true <;>
  norm_num [loop, navStep, cruiseState, exampleConfig, quietTick, afterGps, lockedAt, UpdateGps,
    headingAt, GetCompassHeading, DirectionToBearing, radians, degrees, TWO_PI, h, wrapU8,
    runBearingTolerance, runSteer, wayPointAt]

theorem run_cruiseState (n : Nat) : ∀ c : Nat, c < 256 →
    (run (exampleConfig 0) (cruiseState c) (List.replicate n quietTick)).1 =
        cruiseState ((c + n) % 256) ∧
      ticksInState (exampleConfig 0) E_NAV_STATE.E_NAV_RUN (cruiseState c)
        (List.replicate n quietTick) = n := by
  induction n with
  | zero =>
    intro c hc
    simp [run, ticksInState, Nat.mod_eq_of_lt hc]
  | succ n ih =>
    intro c hc
    have h := ih ((c + 1) % 256) (Nat.mod_lt _ (by norm_num))
    simp only [List.replicate_succ, run, ticksInState, loop_cruiseState, h.1, h.2]
    refine ⟨?_, ?_⟩
    · congr 1
      omega
    · simp [cruiseState]
      omega

theorem run_ticksToRun :
    (run (exampleConfig 0) (initCtrl (exampleConfig 0)) ticksToRun).1 = cruiseState 0 ∧
      ticksInState (exampleConfig 0) E_NAV_STATE.E_NAV_RUN (initCtrl (exampleConfig 0))
        ticksToRun = 0 := by
  constructor
  · norm_num [run, ticksToRun, loop, navStep, cruiseState, exampleConfig, quietTick, fixTick,
      afterGps, lockedAt, UpdateGps, headingAt, GetCompassHeading, DirectionToBearing, radians,
      degrees, TWO_PI, wrapU8, wrapS16, runBearingTolerance, runSteer, wayPointAt, initCtrl,
      initialWayPoints, nextTargetWP, Int.tmod]
  · norm_num [ticksInState, ticksToRun, loop, navStep, exampleConfig, quietTick, fixTick,
      afterGps, lockedAt, UpdateGps, headingAt, GetCompassHeading, DirectionToBearing, radians,
      degrees, TWO_PI, wrapU8, wrapS16, runBearingTolerance, runSteer, wayPointAt, initCtrl,
      initialWayPoints, nextTargetWP, Int.tmod]
    decide

/-- C7 (evaluation at the failing input): the machine reaches `E_NAV_RUN` after five ticks
and cruises with the fix at the origin, `100` away from the way point.  After `256` ticks
in `E_NAV_RUN` the 8-bit counter is back at `0`: the tick numbered `256`, on which the fix
moves to `(50, 0)`, recomputes the distance (`50`) although `256` is not a multiple of
`10`.  After `260` ticks in `E_NAV_RUN` the counter is at `4`: the tick numbered `260`
keeps the old distance (`100`) although `260` is a multiple of `10`. -/
theorem refresh_period_broken_by_counter_wrap :
    (ticksInState (exampleConfig 0) E_NAV_STATE.E_NAV_RUN (initCtrl (exampleConfig 0))
          (ticksToRun ++ List.replicate 256 quietTick) = 256 ∧
        (run (exampleConfig 0) (initCtrl (exampleConfig 0))
          (ticksToRun ++ List.replicate 256 quietTick)).1 = cruiseState 0 ∧
        (loop (exampleConfig 0) (fixTick 50 0) (cruiseState 0)).1.dist_to_waypoint = 50) ∧
      (ticksInState (exampleConfig 0) E_NAV_STATE.E_NAV_RUN (initCtrl (exampleConfig 0))
          (ticksToRun ++ List.replicate 260 quietTick) = 260 ∧
        (run (exampleConfig 0) (initCtrl (exampleConfig 0))
          (ticksToRun ++ List.replicate 260 quietTick)).1 = cruiseState 4 ∧
        (loop (exampleConfig 0) (fixTick 50 0) (cruiseState 4)).1.dist_to_waypoint = 100) := by
  have h256 := run_cruiseState 256 0 (by norm_num)
  have h260 := run_cruiseState 260 0 (by norm_num)
  refine ⟨⟨?_, ?_, ?_⟩, ⟨?_, ?_, ?_⟩⟩
  · rw [ticksInState_append, run_ticksToRun.1, run_ticksToRun.2, h256.2]
  · rw [run_append, run_ticksToRun.1, h256.1]
  · norm_num [loop, navStep, cruiseState, exampleConfig, fixTick, afterGps, lockedAt,
      UpdateGps, refreshDue, wayPointAt]
  · rw [ticksInState_append, run_ticksToRun.1, run_ticksToRun.2, h260.2]
  · rw [run_append, run_ticksToRun.1, h260.1]
  · norm_num [loop, navStep, cruiseState, exampleConfig, fixTick, afterGps, lockedAt,
      UpdateGps, refreshDue, wayPointAt]

/-- C8, on the cruising state with bearing `0`, heading `3` and nominal tolerance `5`: at
distance `8` of an initial `100` the tolerance is `2.5` and the tick steers left; at
distance `100` the tolerance is `5` and the tick goes straight at full speed. -/
theorem run_tick_tolerance_witness :
    (navStep (exampleConfig 0) true 3 nearState).2 = [Cmd.SetRudder 70] ∧
    (navStep (exampleConfig 0) true 3 (cruiseState 1)).2
      = [Cmd.SetRudder 90, Cmd.SetSpeed 50] :=
  ⟨((run_tick_tolerance (exampleConfig 0) 3 nearState rfl).2.1
      (by norm_num [navStep, nearState, cruiseState, refreshDue, exampleConfig])).trans
      (by norm_num [navStep, nearState, cruiseState, refreshDue, exampleConfig,
        DirectionToBearing, runSteer]),
    ((run_tick_tolerance (exampleConfig 0) 3 (cruiseState 1) rfl).2.2
      (by norm_num [navStep, cruiseState, refreshDue, exampleConfig])).trans
      (by norm_num [navStep, cruiseState, refreshDue, exampleConfig,
        DirectionToBearing, runSteer])⟩

/-- C9, on three ticks without lock (no sentence, an invalid fix age, no sentence). -/
theorem no_lock_no_motion_witness :
    (run (exampleConfig 0) (initCtrl (exampleConfig 0))
        [quietTick, noFixTick, quietTick]).1.geNavState
      = E_NAV_STATE.E_NAV_WAIT_FOR_GPS_LOCK ∧
    (run (exampleConfig 0) (initCtrl (exampleConfig 0))
        [quietTick, noFixTick, quietTick]).1.gTargetWP = 0 ∧
    (run (exampleConfig 0) (initCtrl (exampleConfig 0))
        [quietTick, noFixTick, quietTick]).2 = [] :=
  no_lock_no_motion (exampleConfig 0) [quietTick, noFixTick, quietTick] (by decide)
    (by decide)

/-- C10, on `startState` (bearing `0`): with heading `90` the tick turns full left at
quarter speed and changes nothing; with heading `2` and the fix at `(60, 0)` it captures
the distance `40` to the way point `(100, 0)` as the initial distance. -/
theorem start_tick_witness :
    navStep (exampleConfig 0) true 90 startState
        = (startState, [Cmd.SetRudder 45, Cmd.SetSpeed 80]) ∧
      (navStep (exampleConfig 0) false 2 startStateAt60).1.initial_dist_to_waypoint = 40 :=
  ⟨(start_tick (exampleConfig 0) true 90 startState rfl).1
      (by norm_num [DirectionToBearing, startState, cruiseState, exampleConfig]),
    (congrArg (fun r => r.1.initial_dist_to_waypoint)
      ((start_tick (exampleConfig 0) false 2 startStateAt60 rfl).2.2
        (by norm_num [DirectionToBearing, startStateAt60, startState, cruiseState,
          exampleConfig]))).trans
      (by norm_num [startStateAt60, startState, cruiseState, exampleConfig, wayPointAt])⟩

/-- C17, across the wrap: `decide(10, 350, 5) = RIGHT`, hence `decide(350, 10, 5) = LEFT`. -/
theorem DirectionToBearing_swap_witness :
    DirectionToBearing (10 : ℚ) 350 5 = some E_DIRECTION.E_GO_RIGHT ∧
      DirectionToBearing (350 : ℚ) 10 5 = some E_DIRECTION.E_GO_LEFT :=
  ⟨by norm_num [DirectionToBearing],
    (DirectionToBearing_swap (10 : ℚ) 350 5 (by norm_num)).2.2.mp
      (by norm_num [DirectionToBearing])⟩

/-- C19, at the raw angle `-π/2` and a declination of `100` degrees (the heading is
`-90 - 100 + 360 = 170`). -/
theorem GetCompassHeading_small_declination_witness :
    0 ≤ GetCompassHeading Real.pi (-(Real.pi / 2)) 100 ∧
      GetCompassHeading Real.pi (-(Real.pi / 2)) 100 < 360 :=
  (GetCompassHeading_small_declination Real.pi (-(Real.pi / 2)) 100 Real.pi_pos
    ⟨by linarith [Real.pi_pos], by linarith [Real.pi_pos]⟩ ⟨by norm_num, by norm_num⟩).1

/-- C11, on `arrivedState` (bearing `0`, distance `1/2` of an initial `100`, switch
distance `1`) with heading `3`: the tick steers left, stops and moves to
`E_NAV_SET_NEXT_WAYPOINT`. -/
theorem run_tick_with_lock_witness :
    (navStep (exampleConfig 0) true 3 arrivedState).1.geNavState
        = E_NAV_STATE.E_NAV_SET_NEXT_WAYPOINT ∧
      (navStep (exampleConfig 0) true 3 arrivedState).2.getLast?
        = some (Cmd.SetSpeed 90) :=
  ⟨(run_tick_with_lock (exampleConfig 0) 3 arrivedState rfl).2.2.1.mpr
      (by norm_num [navStep, arrivedState, cruiseState, refreshDue, exampleConfig]),
    (run_tick_with_lock (exampleConfig 0) 3 arrivedState rfl).2.2.2.1
      (by norm_num [navStep, arrivedState, cruiseState, refreshDue, exampleConfig])⟩

/-- C13 (counterexample): no fixed home, countdown `0`.  The second tick, executed in
`E_NAV_WAIT_FOR_GPS_LOCK`, is the first to observe the lock, with the fix at `(1, 1)`.  On
the third tick, which leaves the stabilization wait, the decoder delivers `(5, 5)`: slot
`0` receives `(5, 5)`, not the first locked fix `(1, 1)`.  Had the decoder delivered a
sample with an invalid fix age at `(1000, 1000)` instead, slot `0` would hold that. -/
theorem home_is_not_first_locked_fix :
    (exampleConfig 0).USE_HOME_POSITION = false ∧
      lockedTrace (exampleConfig 0) (initCtrl (exampleConfig 0))
        [quietTick, fixTick 1 1, fixTick 5 5] = [false, true, true] ∧
      (run (exampleConfig 0) (initCtrl (exampleConfig 0)) [quietTick]).1.geNavState
        = E_NAV_STATE.E_NAV_WAIT_FOR_GPS_LOCK ∧
      ((run (exampleConfig 0) (initCtrl (exampleConfig 0))
            [quietTick, fixTick 1 1]).1.geNavState
          = E_NAV_STATE.E_NAV_WAIT_FOR_GPS_STABLIZE ∧
        (run (exampleConfig 0) (initCtrl (exampleConfig 0))
            [quietTick, fixTick 1 1]).1.gtGpsData.flat = 1 ∧
        (run (exampleConfig 0) (initCtrl (exampleConfig 0))
            [quietTick, fixTick 1 1]).1.gtGpsData.flon = 1) ∧
      ((run (exampleConfig 0) (initCtrl (exampleConfig 0))
            [quietTick, fixTick 1 1, fixTick 5 5]).1.geNavState
          = E_NAV_STATE.E_NAV_SET_NEXT_WAYPOINT ∧
        (wayPointAt (run (exampleConfig 0) (initCtrl (exampleConfig 0))
            [quietTick, fixTick 1 1, fixTick 5 5]).1.gtWayPoint 0).flat = 5 ∧
        (wayPointAt (run (exampleConfig 0) (initCtrl (exampleConfig 0))
            [quietTick, fixTick 1 1, fixTick 5 5]).1.gtWayPoint 0).flon = 5) ∧
      (wayPointAt (run (exampleConfig 0) (initCtrl (exampleConfig 0))
          [quietTick, fixTick 1 1, noFixTick]).1.gtWayPoint 0).flat = 1000 := by
  refine ⟨rfl, by decide, by decide, ⟨by decide, ?_, ?_⟩, ⟨by decide, ?_, ?_⟩, ?_⟩ <;>
  norm_num [run, loop, navStep, exampleConfig, quietTick, fixTick, noFixTick, afterGps,
    lockedAt, UpdateGps, wrapS16, wayPointAt, initCtrl, initialWayPoints]

/-- C13 (amended), with a countdown of `2`: the lock is observed with the fix at `(1, 1)`;
the third tick of the wait delivers `(5, 5)`, and slot `0` receives `(5, 5)`. -/
theorem home_is_fix_at_end_of_wait_witness :
    (wayPointAt (run (exampleConfig 2)
        (loop (exampleConfig 2) (fixTick 1 1)
          (loop (exampleConfig 2) quietTick (initCtrl (exampleConfig 2))).1).1
        [quietTick, quietTick, fixTick 5 5]).1.gtWayPoint 0).flat = 5 :=
  ((home_is_fix_at_end_of_wait (exampleConfig 2) (fixTick 1 1)
    (loop (exampleConfig 2) quietTick (initCtrl (exampleConfig 2))).1
    [quietTick, quietTick, fixTick 5 5] ⟨by decide, by decide⟩ rfl (by decide) (by decide)
    (by simp [loop, navStep, initCtrl, initialWayPoints, afterGps]) (by decide)).2.1
    (fixTick 5 5) { flat := 5, flon := 5, fmph := 0, fcourse := 0, age_invalid := false }
    rfl rfl).1

theorem run_relockTicks :
    (run (exampleConfig 0) (cruiseState 0) relockTicks).1 =
        { cruiseState 1 with
          gtGpsData := { flat := 40, flon := 0, fmph := 0, fcourse := 0 }
          dist_to_waypoint := 60
          initial_dist_to_waypoint := 60 } ∧
      ticksInState (exampleConfig 0) E_NAV_STATE.E_NAV_SET_NEXT_WAYPOINT (cruiseState 0)
        relockTicks = 0 ∧
      countTicks (exampleConfig 0) (assignsInitialDist (exampleConfig 0)) (cruiseState 0)
        relockTicks = 1 ∧
      countTicks (exampleConfig 0) losesLockInRun (cruiseState 0) relockTicks = 1 := by
  refine ⟨?_, ?_, ?_, ?_⟩ <;>
  norm_num [run, ticksInState, countTicks, assignsInitialDist, losesLockInRun, relockTicks,
    loop, navStep, cruiseState, exampleConfig, quietTick, fixTick, noFixTick, afterGps,
    lockedAt, UpdateGps, headingAt, GetCompassHeading, DirectionToBearing, radians, degrees,
    TWO_PI, wrapU8, refreshDue, runBearingTolerance, runSteer, wayPointAt] <;>
  decide

theorem count_ticksToRun :
    ticksInState (exampleConfig 0) E_NAV_STATE.E_NAV_SET_NEXT_WAYPOINT
        (initCtrl (exampleConfig 0)) ticksToRun = 1 ∧
      countTicks (exampleConfig 0) (assignsInitialDist (exampleConfig 0))
        (initCtrl (exampleConfig 0)) ticksToRun = 1 := by
  refine ⟨?_, ?_⟩ <;>
  norm_num [ticksInState, countTicks, assignsInitialDist, ticksToRun, loop, navStep,
    exampleConfig, quietTick, fixTick, afterGps, lockedAt, UpdateGps, headingAt,
    GetCompassHeading, DirectionToBearing, radians, degrees, TWO_PI, wrapU8, wrapS16,
    runBearingTolerance, runSteer, wayPointAt, initCtrl, initialWayPoints, nextTargetWP,
    Int.tmod] <;>
  decide

/-- C14 (counterexample): one leg, interrupted by a loss of lock.  Five ticks bring the
machine to `E_NAV_RUN` with the initial distance `100`; then the lock is lost
(`E_NAV_STOP`, `E_NAV_WAIT_FOR_GPS_RELOCK`), comes back with the fix at `(40, 0)`
(`E_NAV_START`), and the machine re-enters `E_NAV_RUN`.  Only one tick of the run is
executed in `E_NAV_SET_NEXT_WAYPOINT` and the target index is `1` throughout, yet the
initial distance is assigned on two ticks and ends at `60`. -/
theorem initial_distance_reassigned_after_relock :
    ticksInState (exampleConfig 0) E_NAV_STATE.E_NAV_SET_NEXT_WAYPOINT
        (initCtrl (exampleConfig 0)) (ticksToRun ++ relockTicks) = 1 ∧
      countTicks (exampleConfig 0) (assignsInitialDist (exampleConfig 0))
        (initCtrl (exampleConfig 0)) (ticksToRun ++ relockTicks) = 2 ∧
      ((run (exampleConfig 0) (initCtrl (exampleConfig 0)) ticksToRun).1.gTargetWP = 1 ∧
        (run (exampleConfig 0) (initCtrl (exampleConfig 0))
          ticksToRun).1.initial_dist_to_waypoint = 100) ∧
      ((run (exampleConfig 0) (initCtrl (exampleConfig 0))
          (ticksToRun ++ relockTicks)).1.geNavState = E_NAV_STATE.E_NAV_RUN ∧
        (run (exampleConfig 0) (initCtrl (exampleConfig 0))
          (ticksToRun ++ relockTicks)).1.gTargetWP = 1 ∧
        (run (exampleConfig 0) (initCtrl (exampleConfig 0))
          (ticksToRun ++ relockTicks)).1.initial_dist_to_waypoint = 60) := by
  obtain ⟨r1, r2, r3, -⟩ := run_relockTicks
  refine ⟨?_, ?_, ⟨?_, ?_⟩, ⟨?_, ?_, ?_⟩⟩
  · rw [ticksInState_append, run_ticksToRun.1, count_ticksToRun.1, r2]
  · rw [countTicks_append, run_ticksToRun.1, count_ticksToRun.2, r3]
  · rw [run_ticksToRun.1]; rfl
  · rw [run_ticksToRun.1]; rfl
  · rw [run_append, run_ticksToRun.1, r1]; rfl
  · rw [run_append, run_ticksToRun.1, r1]; rfl
  · rw [run_append, run_ticksToRun.1, r1]

/-- C14 (amended), on the interrupted leg: from the cruising state, over the four ticks of
`relockTicks`, none of which is executed in `E_NAV_SET_NEXT_WAYPOINT`, the initial
distance is assigned on at most one tick more than the lock is lost. -/
theorem initial_distance_assignments_witness :
    countTicks (exampleConfig 0) (assignsInitialDist (exampleConfig 0)) (cruiseState 0)
        relockTicks
      ≤ 1 + countTicks (exampleConfig 0) losesLockInRun (cruiseState 0) relockTicks :=
  (initial_distance_assignments (exampleConfig 0) (cruiseState 0) relockTicks
    run_relockTicks.2.1).1

/-- C15, on the cruising state put in `E_NAV_STOP` and in `E_NAV_WAIT_FOR_GPS_RELOCK`:
without lock the stop tick calls `SetSpeed(SPEED_STOP)`, and with lock the relock tick
moves to `E_NAV_START` with the bearing unchanged. -/
theorem stop_and_relock_ticks_witness :
    (navStep (exampleConfig 0) false 0 stopState).2 = [Cmd.SetSpeed 90] ∧
      (navStep (exampleConfig 0) true 0 relockState).1.geNavState
        = E_NAV_STATE.E_NAV_START ∧
      (navStep (exampleConfig 0) true 0 relockState).1.bear_to_waypoint
        = relockState.bear_to_waypoint :=
  ⟨congrArg Prod.snd ((stop_and_relock_ticks (exampleConfig 0) false 0 stopState).1 rfl),
    congrArg (fun r => r.1.geNavState)
      ((stop_and_relock_ticks (exampleConfig 0) true 0 relockState).2.1 rfl),
    ((stop_and_relock_ticks (exampleConfig 0) true 0 relockState).2.2.1
      (Or.inr rfl)).2.2.1⟩

/-- C18, on the cruising state: the lock drops for one tick and comes back on the next;
the machine is in `E_NAV_IDLE` and is still there two ticks later. -/
theorem idle_absorbing_witness :
    (run (exampleConfig 0) (cruiseState 0)
        [noFixTick, fixTick 0 0, quietTick, noFixTick]).1.geNavState
      = E_NAV_STATE.E_NAV_IDLE :=
  ((idle_absorbing (exampleConfig 0) (cruiseState 0)).2 rfl noFixTick (fixTick 0 0)
    [quietTick, noFixTick] (by decide) (by decide)).2

/-- C20, on `arrivedState`, whose distance `1/2` is within the switch distance `1`: without
lock the tick goes to `E_NAV_STOP` and makes no call. -/
theorem run_tick_without_lock_witness :
    (navStep (exampleConfig 0) false 3 arrivedState).1.geNavState
        = E_NAV_STATE.E_NAV_STOP ∧
      (navStep (exampleConfig 0) false 3 arrivedState).2 = [] :=
  ⟨(run_tick_without_lock (exampleConfig 0) 3 arrivedState rfl).1,
    (run_tick_without_lock (exampleConfig 0) 3 arrivedState rfl).2.2.1⟩

/-- C3 (amended), at the raw angle `-π/2`, a declination of `100` degrees and an error of
a four-thousandth of a degree. -/
theorem GetCompassHeading_in_range_with_margin_witness :
    0 ≤ GetCompassHeading Real.pi (-(Real.pi / 2) + Real.pi / 720000) 100 ∧
      GetCompassHeading Real.pi (-(Real.pi / 2) + Real.pi / 720000) 100 < 360 := by
  have hpi := Real.pi_pos
  have hne : Real.pi ≠ 0 := ne_of_gt hpi
  have h1 : degrees Real.pi (-(Real.pi / 2)) = -90 := by
    unfold degrees
    field_simp
    ring
  have h2 : degrees Real.pi (Real.pi / 720000) = 1 / 4000 := by
    unfold degrees
    field_simp
    ring
  exact GetCompassHeading_in_range_with_margin Real.pi (-(Real.pi / 2)) 100
    (Real.pi / 720000) hpi ⟨by linarith, by linarith⟩ ⟨by norm_num, by norm_num⟩
    (by rw [h1]; norm_num) (by rw [h1]; norm_num [abs_of_neg]) (by rw [h2]; norm_num [abs_of_pos])

/-! ## The turn decision in binary32 -/

theorem roundTiesEven_sub_le (y : ℚ) : |(roundTiesEven y : ℚ) - y| ≤ 1 / 2 := by
  have h0 := Int.fract_nonneg y
  have h1 := Int.fract_lt_one y
  have hy : y = ⌊y⌋ + Int.fract y := (Int.floor_add_fract y).symm
  unfold roundTiesEven
  split_ifs with a b c
  · rw [abs_le]; constructor <;> linarith
  · push_cast; rw [abs_le]; constructor <;> linarith
  · rw [abs_le]; constructor <;> linarith
  · push_cast; rw [abs_le]; constructor <;> linarith

theorem roundTiesEven_nonneg (y : ℚ) (hy : 0 ≤ y) : 0 ≤ roundTiesEven y := by
  have hf : 0 ≤ ⌊y⌋ := Int.floor_nonneg.mpr hy
  unfold roundTiesEven
  split_ifs <;> omega

theorem roundTiesEven_nonpos (y : ℚ) (hy : y ≤ 0) : roundTiesEven y ≤ 0 := by
  rcases eq_or_lt_of_le hy with h | h
  · subst h; simp [roundTiesEven]
  · have hf : ⌊y⌋ ≤ -1 := by
      have : ⌊y⌋ < 0 := Int.floor_lt.mpr (by simpa using h)
      omega
    unfold roundTiesEven
    split_ifs <;> omega

theorem f32Ulp_pos (x : ℚ) : 0 < f32Ulp x := by
  unfold f32Ulp
  positivity

theorem f32Exponent_le_eight (x : ℚ) (hx : |x| < 512) : f32Exponent x ≤ 8 := by
  unfold f32Exponent
  apply max_le _ (by norm_num)
  rcases eq_or_lt_of_le (abs_nonneg x) with h | h
  · rw [← h, Int.log_zero_right]; norm_num
  · have : Int.log 2 |x| < 9 := by
      rw [← Int.lt_zpow_iff_log_lt (by norm_num) h]
      norm_num
      exact hx
    omega

theorem f32Ulp_le (x : ℚ) (hx : |x| < 512) : f32Ulp x ≤ 1 / 32768 := by
  have h := f32Exponent_le_eight x hx
  unfold f32Ulp
  calc (2 : ℚ) ^ (f32Exponent x - 23) ≤ (2 : ℚ) ^ ((8 : ℤ) - 23) :=
        zpow_le_zpow_right₀ (by norm_num) (by omega)
    _ = 1 / 32768 := by norm_num

theorem roundF32_sub_le (x : ℚ) (hx : |x| < 512) : |roundF32 x - x| ≤ 1 / 65536 := by
  have hu := f32Ulp_pos x
  have hle := f32Ulp_le x hx
  have h := roundTiesEven_sub_le (x / f32Ulp x)
  have e : roundF32 x - x = ((roundTiesEven (x / f32Ulp x) : ℚ) - x / f32Ulp x) * f32Ulp x := by
    unfold roundF32
    field_simp
  rw [e, abs_mul, abs_of_pos hu]
  calc |(roundTiesEven (x / f32Ulp x) : ℚ) - x / f32Ulp x| * f32Ulp x
      ≤ 1 / 2 * (1 / 32768) := mul_le_mul h hle hu.le (by norm_num)
    _ = 1 / 65536 := by norm_num

theorem roundF32_nonneg (x : ℚ) (hx : 0 ≤ x) : 0 ≤ roundF32 x := by
  unfold roundF32
  have := roundTiesEven_nonneg (x / f32Ulp x) (div_nonneg hx (f32Ulp_pos x).le)
  exact mul_nonneg (by exact_mod_cast this) (f32Ulp_pos x).le

theorem roundF32_nonpos (x : ℚ) (hx : x ≤ 0) : roundF32 x ≤ 0 := by
  unfold roundF32
  have := roundTiesEven_nonpos (x / f32Ulp x) (div_nonpos_of_nonpos_of_nonneg hx (f32Ulp_pos x).le)
  exact mul_nonpos_of_nonpos_of_nonneg (by exact_mod_cast this) (f32Ulp_pos x).le

theorem f32Exponent_eq (x : ℚ) (e : ℤ) (he : -126 ≤ e) (h1 : (2 : ℚ) ^ e ≤ |x|)
    (h2 : |x| < (2 : ℚ) ^ (e + 1)) : f32Exponent x = e := by
  have hpos : 0 < |x| := lt_of_lt_of_le (by positivity) h1
  have ha : e ≤ Int.log 2 |x| := by
    rw [← Int.zpow_le_iff_le_log (by norm_num) hpos]
    exact_mod_cast h1
  have hb : Int.log 2 |x| < e + 1 := by
    rw [← Int.lt_zpow_iff_log_lt (by norm_num) hpos]
    exact_mod_cast h2
  unfold f32Exponent
  omega

theorem roundF32_of_binade (x : ℚ) (e : ℤ) (he : -126 ≤ e) (h1 : (2 : ℚ) ^ e ≤ |x|)
    (h2 : |x| < (2 : ℚ) ^ (e + 1)) :
    roundF32 x = (roundTiesEven (x / (2 : ℚ) ^ (e - 23)) : ℚ) * (2 : ℚ) ^ (e - 23) := by
  unfold roundF32 f32Ulp
  rw [f32Exponent_eq x e he h1 h2]

theorem roundF32_zero : roundF32 0 = 0 :=
  le_antisymm (roundF32_nonpos 0 (le_refl 0)) (roundF32_nonneg 0 (le_refl 0))

theorem DirectionToBearingF32_eq (d c t : ℚ) :
    DirectionToBearingF32 d c t = DirectionToBearing (roundF32 (d - c)) 0 t := by
  unfold DirectionToBearingF32 DirectionToBearing
  simp only [sub_zero]

theorem roundF32_tie_value : roundF32 ((180 + 1 / 65536) - 5 / 524288) = 180 := by
  rw [roundF32_of_binade _ 7 (by norm_num) (by norm_num [abs_of_pos])
    (by norm_num [abs_of_pos])]
  norm_num [roundTiesEven, Int.fract]

theorem roundF32_deadband_value : roundF32 ((5 + 1 / 2097152) - 3 / 8388608) = 5 := by
  rw [roundF32_of_binade _ 2 (by norm_num) (by norm_num [abs_of_pos])
    (by norm_num [abs_of_pos])]
  norm_num [roundTiesEven, Int.fract]

theorem roundF32_spec_values : roundF32 (90 - 80) = 90 - 80 ∧ roundF32 (10 - 350) = 10 - 350 := by
  constructor
  · rw [roundF32_of_binade _ 3 (by norm_num) (by norm_num [abs_of_pos])
      (by norm_num [abs_of_pos])]
    norm_num [roundTiesEven, Int.fract]
  · rw [roundF32_of_binade _ 8 (by norm_num) (by norm_num [abs_of_neg])
      (by norm_num [abs_of_neg])]
    norm_num [roundTiesEven, Int.fract]

theorem roundF32_representable :
    roundF32 (180 + 1 / 65536) = 180 + 1 / 65536 ∧ roundF32 (5 / 524288) = 5 / 524288 ∧
      roundF32 (5 + 1 / 2097152) = 5 + 1 / 2097152 ∧
      roundF32 (3 / 8388608) = 3 / 8388608 := by
  refine ⟨?_, ?_, ?_, ?_⟩
  · rw [roundF32_of_binade _ 7 (by norm_num) (by norm_num [abs_of_pos])
      (by norm_num [abs_of_pos])]
    norm_num [roundTiesEven, Int.fract]
  · rw [roundF32_of_binade _ (-17) (by norm_num) (by norm_num [abs_of_pos])
      (by norm_num [abs_of_pos])]
    norm_num [roundTiesEven, Int.fract]
  · rw [roundF32_of_binade _ 2 (by norm_num) (by norm_num [abs_of_pos])
      (by norm_num [abs_of_pos])]
    norm_num [roundTiesEven, Int.fract]
  · rw [roundF32_of_binade _ (-22) (by norm_num) (by norm_num [abs_of_pos])
      (by norm_num [abs_of_pos])]
    norm_num [roundTiesEven, Int.fract]

/-- C2 (counterexample): the bearings `180 + 2^-16` and `5 * 2^-19`, both binary32 numbers
in `[0, 360)`, with tolerance `5`.  Their difference `180 + 3 * 2^-19` is not a binary32
number and `float Diff` receives `180`; `bBig` is false and the function answers
`E_GO_RIGHT`, while the clockwise angle `(d - c) mod 360` is above `180`.  Likewise, for
`5 + 2^-21` and `3 * 2^-23` the difference is above the tolerance `5` but `Diff` is `5`,
and the function answers `E_GO_STRAIGHT`. -/
theorem DirectionToBearingF32_tie_takes_longer_turn :
    ((0 : ℚ) ≤ 180 + 1 / 65536 ∧ (180 + 1 / 65536 : ℚ) < 360) ∧
      ((0 : ℚ) ≤ 5 / 524288 ∧ (5 / 524288 : ℚ) < 360) ∧
      (5 : ℚ) < |(180 + 1 / 65536) - 5 / 524288| ∧
      roundF32 ((180 + 1 / 65536) - 5 / 524288) = 180 ∧
      DirectionToBearingF32 (180 + 1 / 65536) (5 / 524288) 5 = some E_DIRECTION.E_GO_RIGHT ∧
      ¬ mod360 ((180 + 1 / 65536 : ℚ) - 5 / 524288) ≤ 180 ∧
      ((5 : ℚ) < |(5 + 1 / 2097152) - 3 / 8388608| ∧
        DirectionToBearingF32 (5 + 1 / 2097152) (3 / 8388608) 5
          = some E_DIRECTION.E_GO_STRAIGHT) := by
  refine ⟨⟨by norm_num, by norm_num⟩, ⟨by norm_num, by norm_num⟩, ?_, roundF32_tie_value,
    ?_, ?_, ?_, ?_⟩
  · norm_num [abs_of_pos]
  · rw [DirectionToBearingF32_eq, roundF32_tie_value]
    norm_num [DirectionToBearing]
  · norm_num [mod360]
  · norm_num [abs_of_pos]
  · rw [DirectionToBearingF32_eq, roundF32_deadband_value]
    norm_num [DirectionToBearing]

/-- C2 (amended): for bearings `d`, `c` in `[0, 360)` and a tolerance `t ≥ 0`, with `Diff`
the binary32 value of `d - c` that the function computes, which is within `2^-16` of
`d - c`: the function answers `E_GO_STRAIGHT` exactly when `|Diff| ≤ t`; when `|Diff| > t`,
and so whenever `|d - c| > t + 2^-16`, it answers `E_GO_RIGHT` or `E_GO_LEFT`; when it
answers `E_GO_RIGHT` the clockwise angle `(d - c) mod 360` is at most `180 + 2^-16`, and
when it answers `E_GO_LEFT` the counter-clockwise angle `(c - d) mod 360` is at most
`180 + 2^-16`. -/
theorem DirectionToBearingF32_shorter_turn (d c t : ℚ)
    (hd : 0 ≤ d ∧ d < 360) (hc : 0 ≤ c ∧ c < 360) (ht : 0 ≤ t) :
    |roundF32 (d - c) - (d - c)| ≤ 1 / 65536 ∧
      (DirectionToBearingF32 d c t = some E_DIRECTION.E_GO_STRAIGHT ↔
        |roundF32 (d - c)| ≤ t) ∧
      (t < |roundF32 (d - c)| →
        DirectionToBearingF32 d c t = some E_DIRECTION.E_GO_RIGHT ∨
          DirectionToBearingF32 d c t = some E_DIRECTION.E_GO_LEFT) ∧
      (t + 1 / 65536 < |d - c| → t < |roundF32 (d - c)|) ∧
      (DirectionToBearingF32 d c t = some E_DIRECTION.E_GO_RIGHT →
        mod360 (d - c) ≤ 180 + 1 / 65536) ∧
      (DirectionToBearingF32 d c t = some E_DIRECTION.E_GO_LEFT →
        mod360 (c - d) ≤ 180 + 1 / 65536) := by
  have hx1 : -360 < d - c := by linarith [hd.1, hc.2]
  have hx2 : d - c < 360 := by linarith [hd.2, hc.1]
  have herr : |roundF32 (d - c) - (d - c)| ≤ 1 / 65536 :=
    roundF32_sub_le (d - c) (by rw [abs_lt]; constructor <;> linarith)
  obtain ⟨e1, e2⟩ := abs_le.mp herr
  have hpos : 0 < roundF32 (d - c) → 0 < d - c := by
    intro h
    by_contra hn
    exact absurd (roundF32_nonpos (d - c) (not_lt.mp hn)) (not_le.mpr h)
  have hneg : roundF32 (d - c) < 0 → d - c < 0 := by
    intro h
    by_contra hn
    exact absurd (roundF32_nonneg (d - c) (not_lt.mp hn)) (not_le.mpr h)
  refine ⟨herr, ?_, ?_, ?_, ?_, ?_⟩
  · rw [DirectionToBearingF32_eq, DirectionToBearing_straight_iff, sub_zero]
  · intro h
    rw [DirectionToBearingF32_eq, DirectionToBearing_right_iff, DirectionToBearing_left_iff,
      sub_zero]
    by_cases hn : roundF32 (d - c) < 0 <;> by_cases hb : (180 : ℚ) < |roundF32 (d - c)|
    · exact Or.inl ⟨h, Or.inr ⟨hn, hb⟩⟩
    · exact Or.inr ⟨h, Or.inr ⟨hn, not_lt.mp hb⟩⟩
    · exact Or.inr ⟨h, Or.inl ⟨not_lt.mp hn, hb⟩⟩
    · exact Or.inl ⟨h, Or.inl ⟨not_lt.mp hn, not_lt.mp hb⟩⟩
  · intro h
    have : |d - c| ≤ |roundF32 (d - c)| + 1 / 65536 := by
      have h3 := abs_sub_abs_le_abs_sub (d - c) (roundF32 (d - c))
      have h4 : |d - c - roundF32 (d - c)| = |roundF32 (d - c) - (d - c)| :=
        abs_sub_comm _ _
      linarith
    linarith
  · rw [DirectionToBearingF32_eq, DirectionToBearing_right_iff, sub_zero]
    rintro ⟨hlt, ⟨h0, hs⟩ | ⟨hn, hb⟩⟩
    · have hD : 0 < roundF32 (d - c) := by
        rcases eq_or_lt_of_le h0 with h | h
        · rw [← h, abs_zero] at hlt
          exact absurd hlt (not_lt.mpr ht)
        · exact h
      have hx := hpos hD
      rw [abs_of_nonneg h0] at hs
      rw [mod360_of_nonneg _ hx.le hx2]
      linarith
    · have hx := hneg hn
      rw [abs_of_neg hn] at hb
      rw [mod360_of_neg _ hx1.le hx]
      linarith
  · rw [DirectionToBearingF32_eq, DirectionToBearing_left_iff, sub_zero]
    rintro ⟨hlt, ⟨h0, hb⟩ | ⟨hn, hs⟩⟩
    · rw [abs_of_nonneg h0] at hb
      have hx := hpos (by linarith)
      rw [mod360_of_neg _ (by linarith) (by linarith)]
      linarith
    · have hx := hneg hn
      rw [abs_of_neg hn] at hs
      rw [mod360_of_nonneg _ (by linarith) (by linarith)]
      linarith

/-- C2 (amended), at the tie `(180 + 2^-16, 5 * 2^-19, 5)`, where the answer is
`E_GO_RIGHT` and the clockwise angle is within the bound, and at the spec's two examples
`decide(90, 80, 5) = RIGHT` and `decide(10, 350, 5) = RIGHT`. -/
theorem DirectionToBearingF32_shorter_turn_witness :
    (DirectionToBearingF32 (180 + 1 / 65536) (5 / 524288) 5 = some E_DIRECTION.E_GO_RIGHT ∧
        mod360 ((180 + 1 / 65536 : ℚ) - 5 / 524288) ≤ 180 + 1 / 65536) ∧
      (DirectionToBearingF32 90 80 5 = some E_DIRECTION.E_GO_RIGHT ∧
        mod360 ((90 : ℚ) - 80) ≤ 180 + 1 / 65536) ∧
      (DirectionToBearingF32 10 350 5 = some E_DIRECTION.E_GO_RIGHT ∧
        mod360 ((10 : ℚ) - 350) ≤ 180 + 1 / 65536) :=
  ⟨⟨by rw [DirectionToBearingF32_eq, roundF32_tie_value]; norm_num [DirectionToBearing],
      (DirectionToBearingF32_shorter_turn (180 + 1 / 65536) (5 / 524288) 5
        ⟨by norm_num, by norm_num⟩ ⟨by norm_num, by norm_num⟩ (by norm_num)).2.2.2.2.1
        (by rw [DirectionToBearingF32_eq, roundF32_tie_value]; norm_num [DirectionToBearing])⟩,
    ⟨by rw [DirectionToBearingF32_eq, roundF32_spec_values.1]; norm_num [DirectionToBearing],
      (DirectionToBearingF32_shorter_turn 90 80 5
        ⟨by norm_num, by norm_num⟩ ⟨by norm_num, by norm_num⟩ (by norm_num)).2.2.2.2.1
        (by rw [DirectionToBearingF32_eq, roundF32_spec_values.1]
            norm_num [DirectionToBearing])⟩,
    ⟨by rw [DirectionToBearingF32_eq, roundF32_spec_values.2]; norm_num [DirectionToBearing],
      (DirectionToBearingF32_shorter_turn 10 350 5
        ⟨by norm_num, by norm_num⟩ ⟨by norm_num, by norm_num⟩ (by norm_num)).2.2.2.2.1
        (by rw [DirectionToBearingF32_eq, roundF32_spec_values.2]
            norm_num [DirectionToBearing])⟩⟩

end GpsBoat
